import Mathlib

/-!
Verification of the rawtoaces colour-science core.

The development shallowly embeds the solver code (SpectralSolver, the DNG
metadata solver and the colorimetry primitives) in Lean.  IEEE doubles are
modelled as exact rationals `ℚ`; the external Ceres NLLS solve is modelled as
an oracle recording the final parameter vector and the number of successful
steps, since its output is not a function of the inputs computable here.
The `Spectrum` / `SpectralData` container operations are not part of the
sources (only their call sites are); those few operations are modelled from
the spec, and are marked as such in their doc comments.
-/

namespace Rta

/-- Wavelength shape of a sampled spectrum: start, end and step in nm
(the `end` field is named `stop` because `end` is reserved in Lean). -/
structure SpectralShape where
  start : Int
  stop : Int
  step : Int
deriving DecidableEq

/-- Default shape used by every core routine: (380, 780, 5), 81 samples. -/
def defaultShape : SpectralShape := ⟨380, 780, 5⟩

/-- Modelled from the spec: `Spectrum` (class missing from src/): a shape
record and a dense sample vector. -/
structure Spectrum where
  shape : SpectralShape
  values : List ℚ
deriving DecidableEq

/-- Modelled from the spec: `Spectrum::integrate()` is the rectangular sum of
the samples times the step. -/
def Spectrum.integrate (s : Spectrum) : ℚ :=
  (s.shape.step : ℚ) * s.values.sum

/-- Modelled from the spec: pointwise product of two spectra sharing a shape.
The *ShapeMismatch* failure on differing shapes is not modelled; every use in
the theorems below is on spectra of equal shape and sample count. -/
def Spectrum.mul (a b : Spectrum) : Spectrum :=
  ⟨a.shape, List.zipWith (· * ·) a.values b.values⟩

/-- Modelled from the spec: scalar compound assignment `*=`. -/
def Spectrum.scale (a : Spectrum) (q : ℚ) : Spectrum :=
  ⟨a.shape, a.values.map (fun v => v * q)⟩

/-- Modelled from the spec: `Spectrum::max()`, the maximum sample.  The C++
maximum of an empty vector is undefined; the model returns 0 there (every use
below is on the non-empty case or only compares equal values). -/
def Spectrum.maxValue (s : Spectrum) : ℚ :=
  match s.values with
  | [] => 0
  | v :: vs => vs.foldl max v

/-- Modelled from the spec: a `SpectralData` record: side attributes plus the
named channel sets (`set name ↦ ordered (channel name, Spectrum) list`). -/
structure SpectralData where
  manufacturer : String
  model : String
  illuminant : String
  data : List (String × List (String × Spectrum))
deriving DecidableEq

/-- Modelled from the spec: lookup of a channel set by name
(`data.count(name)`, `data.at(name)` in the call sites). -/
def SpectralData.set (d : SpectralData) (name : String) :
    Option (List (String × Spectrum)) :=
  d.data.lookup name

/-- Modelled from the spec: `record[channel]` returns the named spectrum from
the `"main"` set; `none` models the *MissingChannel* failure. -/
def SpectralData.channel (d : SpectralData) (c : String) : Option Spectrum :=
  (d.set "main").bind (fun s => s.lookup c)

/-- An empty data record (`SpectralData` is constructed empty). -/
def SpectralData.empty : SpectralData := ⟨"", "", "", []⟩

/-!  EXIF LightSource decoding (`lightSourceToColorTemp`).  The C++ takes an
`unsigned short` and returns a `double`; every value involved is a small
non-negative integer (exactly representable as a double), so the model uses
`ℕ`.  Theorems that quantify over tags restrict them to the `uint16` range. -/

/-- Table of EXIF LightSource tag values and their colour temperatures
(`LightSourceEXIFTagValues` in the source). -/
def LightSourceEXIFTagValues : List (ℕ × ℕ) :=
  [(0, 5500), (1, 5500), (2, 3500), (3, 3400),
   (10, 5550), (17, 2856), (18, 4874), (19, 6774),
   (20, 5500), (21, 6500), (22, 7500)]

/-- EXIF LightSource tag to colour temperature: tags at or above 32768 encode
the Kelvin value directly (tag − 32768); otherwise the first matching table
row is returned, and 5500 when no row matches. -/
def lightSourceToColorTemp (tag : ℕ) : ℕ :=
  if 32768 ≤ tag then tag - 32768
  else
    match LightSourceEXIFTagValues.lookup tag with
    | some v => v
    | none => 5500

/-!  SpectralSolver state and the white-balance path. -/

/-- The identity bootstrap table `neutral3` from define.h. -/
def neutral3 : List (List ℚ) := [[1, 0, 0], [0, 1, 0], [0, 0, 1]]

/-- Solver state: the four public data members, the cached illuminant list,
and the two outputs (`_WB_multipliers`, `_IDT_matrix`). -/
structure SpectralSolver where
  camera : SpectralData
  illuminant : SpectralData
  observer : SpectralData
  training_data : SpectralData
  all_illuminants : List SpectralData
  WB_multipliers : List ℚ
  IDT_matrix : List (List ℚ)
deriving DecidableEq

/-- The constructor `SpectralSolver::SpectralSolver`: white balance set to
all ones, IDT matrix set to `neutral3` (the identity). -/
def SpectralSolver.init : SpectralSolver :=
  ⟨SpectralData.empty, SpectralData.empty, SpectralData.empty,
   SpectralData.empty, [], [1, 1, 1], neutral3⟩

/-- The precondition check pattern used by the solver entry points:
`data.count("main") == 0 || data.at("main").size() != n`. -/
def SpectralData.mainBad (d : SpectralData) (n : ℕ) : Bool :=
  match d.set "main" with
  | none => true
  | some l => l.length != n

/-- The training-data check in `calculate_IDT_matrix`:
`data.count("main") == 0 || data.at("main").empty()`. -/
def SpectralData.mainMissingOrEmpty (d : SpectralData) : Bool :=
  match d.set "main" with
  | none => true
  | some l => l.isEmpty

/-- Modelled from the spec: in-place scaling of the `"power"` channel of the
`"main"` set (the write through the reference returned by
`illuminant["power"]` followed by `*= scale`). -/
def SpectralData.scalePower (d : SpectralData) (q : ℚ) : SpectralData :=
  { d with
    data := d.data.map fun s =>
      if s.1 = "main" then
        (s.1, s.2.map fun c => if c.1 = "power" then (c.1, c.2.scale q) else c)
      else s }

/-- `scaleLSC`: pick the camera channel with the largest sample, and scale
the illuminant power by the reciprocal of the integral of that channel times
the power.  `none` models the failure of a channel accessor.  The reciprocal
of a zero integral is IEEE `inf` in C++; the `ℚ` model returns 0 there, and
every theorem below assumes the integral is non-zero. -/
def scaleLSC (camera illuminant : SpectralData) : Option SpectralData := do
  let r ← camera.channel "R"
  let g ← camera.channel "G"
  let b ← camera.channel "B"
  let max_channel :=
    if r.maxValue ≥ g.maxValue ∧ r.maxValue ≥ b.maxValue then "R"
    else if g.maxValue ≥ r.maxValue ∧ g.maxValue ≥ b.maxValue then "G"
    else "B"
  let camera_spectrum ← camera.channel max_channel
  let illuminant_spectrum ← illuminant.channel "power"
  let scale := 1 / (camera_spectrum.mul illuminant_spectrum).integrate
  some (illuminant.scalePower scale)

/-- `calWB`: scale the illuminant via `scaleLSC`, integrate each camera
channel against the scaled power, and normalise to the green channel.
Returns the (mutated-in-place in C++) scaled illuminant plus the multiplier
vector. -/
def calWB (camera illuminant : SpectralData) : Option (SpectralData × List ℚ) := do
  let scaled ← scaleLSC camera illuminant
  let camera_r ← camera.channel "R"
  let camera_g ← camera.channel "G"
  let camera_b ← camera.channel "B"
  let illum ← scaled.channel "power"
  let r := (camera_r.mul illum).integrate
  let g := (camera_g.mul illum).integrate
  let b := (camera_b.mul illum).integrate
  some (scaled, [g / r, 1, g / b])

/-- The camera error message printed by `SpectralSolver::calculate_WB`. -/
def cameraErrorWB : String :=
  "ERROR: camera needs to be initialised prior to calling SpectralSolver::calculate_WB()"

/-- The illuminant error message printed by `SpectralSolver::calculate_WB`. -/
def illuminantErrorWB : String :=
  "ERROR: illuminant needs to be initialised prior to calling SpectralSolver::calculate_WB()"

/-- `SpectralSolver::calculate_WB`, faithful to the source: the camera check
prints its error message but has no `return false`, so control falls through
to the illuminant check and, when that one passes, to the computation.
`none` models a crash (a channel accessor failing); otherwise the result is
`(returned bool, updated solver, messages printed on stderr)`. -/
def SpectralSolver.calculate_WB (s : SpectralSolver) :
    Option (Bool × SpectralSolver × List String) :=
  let errs := if s.camera.mainBad 3 then [cameraErrorWB] else []
  if s.illuminant.mainBad 1 then some (false, s, errs ++ [illuminantErrorWB])
  else
    match calWB s.camera s.illuminant with
    | none => none
    | some (scaled, wb) =>
        some (true, { s with illuminant := scaled, WB_multipliers := wb }, errs)

/-!  The IDT curve fit.  The residual construction (`calTI`, `calRGB`,
`calXYZ`, `XYZtoLAB` and the `Objfun` objective) feeds only the external
Ceres Levenberg-Marquardt solve, whose output is not a computable function
of those inputs in this embedding; the solve is therefore modelled as an
oracle `FitSummary` recording the final parameter vector `B` and
`summary.num_successful_steps`. -/

/-- Oracle for the external Ceres solve in `curveFit`: the final parameter
vector `B[0..5]` and the reported number of successful steps. -/
structure FitSummary where
  B : Fin 6 → ℚ
  num_successful_steps : ℕ

/-- `curveFit` after the Ceres solve: when `summary.num_successful_steps` is
non-zero the 3×3 output matrix is written from `B` (two fitted entries per
row, third entry `1 − B(2i) − B(2i+1)`) and `true` is returned; otherwise
nothing is written and `false` is returned. -/
def curveFit (fit : FitSummary) (out_IDT_matrix : List (List ℚ)) :
    Bool × List (List ℚ) :=
  if fit.num_successful_steps ≠ 0 then
    (true,
     [[fit.B 0, fit.B 1, 1 - fit.B 0 - fit.B 1],
      [fit.B 2, fit.B 3, 1 - fit.B 2 - fit.B 3],
      [fit.B 4, fit.B 5, 1 - fit.B 4 - fit.B 5]])
  else (false, out_IDT_matrix)

/-- `SpectralSolver::calculate_IDT_matrix`: the four precondition checks in
source order, then the curve fit; the IDT member receives whatever
`curveFit` leaves in the output argument. -/
def SpectralSolver.calculate_IDT_matrix (s : SpectralSolver) (fit : FitSummary) :
    Bool × SpectralSolver :=
  if s.camera.mainBad 3 then (false, s)
  else if s.illuminant.mainBad 1 then (false, s)
  else if s.observer.mainBad 3 then (false, s)
  else if s.training_data.mainMissingOrEmpty then (false, s)
  else
    let r := curveFit fit s.IDT_matrix
    (r.1, { s with IDT_matrix := r.2 })

/-!  CIE daylight SPD reconstruction (`cctToxy`, `calculate_daylight_SPD`)
and the helpers it uses from define.h (`findIndexInterp1`,
`interp1DLinear`, the `s_series` table). -/

/-- The CIE S-series table from define.h: 54 rows of
(wavelength nm, S0, S1, S2) at 10 nm from 300 nm to 830 nm. -/
def s_series : List (ℤ × ℚ × ℚ × ℚ) :=
  [(300, 0.04, 0.02, 0.0),
   (310, 6.0, 4.5, 2.0),
   (320, 29.6, 22.4, 4.0),
   (330, 55.3, 42.0, 8.5),
   (340, 57.3, 40.6, 7.8),
   (350, 61.8, 41.6, 6.7),
   (360, 61.5, 38.0, 5.3),
   (370, 68.8, 42.4, 6.1),
   (380, 63.4, 38.5, 3.0),
   (390, 65.8, 35.0, 1.2),
   (400, 94.8, 43.4, -1.1),
   (410, 104.8, 46.3, -0.5),
   (420, 105.9, 43.9, -0.7),
   (430, 96.8, 37.1, -1.2),
   (440, 113.9, 36.7, -2.6),
   (450, 125.6, 35.9, -2.9),
   (460, 125.5, 32.6, -2.8),
   (470, 121.3, 27.9, -2.6),
   (480, 121.3, 24.3, -2.6),
   (490, 113.5, 20.1, -1.8),
   (500, 113.1, 16.2, -1.5),
   (510, 110.8, 13.2, -1.3),
   (520, 106.5, 8.6, -1.2),
   (530, 108.8, 6.1, -1.0),
   (540, 105.3, 4.2, -0.5),
   (550, 104.4, 1.9, -0.3),
   (560, 100.0, 0.0, 0.0),
   (570, 96.0, -1.6, 0.2),
   (580, 95.1, -3.5, 0.5),
   (590, 89.1, -3.5, 2.1),
   (600, 90.5, -5.8, 3.2),
   (610, 90.3, -7.2, 4.1),
   (620, 88.4, -8.6, 4.7),
   (630, 84.0, -9.5, 5.1),
   (640, 85.1, -10.9, 6.7),
   (650, 81.9, -10.7, 7.3),
   (660, 82.6, -12.0, 8.6),
   (670, 84.9, -14.0, 9.8),
   (680, 81.3, -13.6, 10.2),
   (690, 71.9, -12.0, 8.3),
   (700, 74.3, -13.3, 9.6),
   (710, 76.4, -12.9, 8.5),
   (720, 63.3, -10.6, 7.0),
   (730, 71.7, -11.6, 7.6),
   (740, 77.0, -12.2, 8.0),
   (750, 65.2, -10.2, 6.7),
   (760, 47.7, -7.8, 5.2),
   (770, 68.6, -11.2, 7.4),
   (780, 65.0, -10.4, 6.8),
   (790, 66.0, -10.6, 7.0),
   (800, 61.0, -9.7, 6.4),
   (810, 53.3, -8.3, 5.5),
   (820, 58.9, -9.3, 6.1),
   (830, 61.9, -9.8, 6.5)]

/-- Chromaticity from CCT (`cctToxy`): the CIE two-segment cubic in `1/cct`
(piecewise at 7003.77 K), then the quadratic for `y`. -/
def cctToxy (cctd : ℚ) : List ℚ :=
  let x :=
    if 4002.15 ≤ cctd ∧ cctd ≤ 7003.77 then
      0.244063 + 99.11 / cctd + 2.9678 * 1000000 / cctd ^ 2 -
        4.6070 * 1000000000 / cctd ^ 3
    else
      0.237040 + 247.48 / cctd + 1.9018 * 1000000 / cctd ^ 2 -
        2.0064 * 1000000000 / cctd ^ 3
  [x, -3 * x ^ 2 + 2.87 * x - 0.275]

/-- Index search for interpolation (`findIndexInterp1`, instantiated at the
integer grid): the index of the grid point with the smallest non-negative
distance below `val`, or −1 when every grid point is above `val`. -/
def findIndexInterp1 (val : ℤ) (x : List ℤ) : ℤ :=
  ((List.range x.length).foldl
    (fun di i =>
      let tmp := val - x.getD i 0
      if tmp < di.1 ∧ 0 ≤ tmp then (tmp, (i : ℤ)) else di)
    ((10 : ℤ) ^ 9, -1)).2

/-- Piecewise-linear resampling (`interp1DLinear`): per-segment slopes and
intercepts (the last segment duplicated), then evaluation at each requested
abscissa. -/
def interp1DLinear (X0 X1 : List ℤ) (Y0 : List ℚ) : List ℚ :=
  let slope0 := (List.range (X0.length - 1)).map
    (fun i => (Y0.getD (i + 1) 0 - Y0.getD i 0) /
      ((X0.getD (i + 1) 0 - X0.getD i 0 : ℤ) : ℚ))
  let intercept0 := (List.range (X0.length - 1)).map
    (fun i => Y0.getD i 0 - (X0.getD i 0 : ℚ) * slope0.getD i 0)
  let slope := slope0 ++ [slope0.getD (slope0.length - 1) 0]
  let intercept := intercept0 ++ [intercept0.getD (intercept0.length - 1) 0]
  X1.map (fun xi =>
    let index := findIndexInterp1 xi X0
    if index ≠ -1 then
      slope.getD index.toNat 0 * (xi : ℚ) + intercept.getD index.toNat 0
    else
      slope.getD 0 0 * (xi : ℚ) + intercept.getD 0 0)

/-- `calculate_daylight_SPD`: scale the CCT (Kelvin band [4000, 25000] or
legacy band [40, 250]; anything else calls `exit(1)`, modelled as `none`),
compute the chromaticity and the `M1`/`M2` mixing weights, resample the
S-series bases onto the shape's step, and emit the combination only at
wavelengths 380 to 780. -/
def calculate_daylight_SPD (cct : ℤ) (shape : SpectralShape) : Option (List ℚ) :=
  let inc := shape.step
  let cctd? : Option ℚ :=
    if 40 ≤ cct ∧ cct ≤ 250 then some ((cct : ℚ) * 100 * 1.4387752 / 1.438)
    else if 4000 ≤ cct ∧ cct ≤ 25000 then some ((cct : ℚ))
    else none
  match cctd? with
  | none => none
  | some cctd =>
    let xy := cctToxy cctd
    let m0 := 0.0241 + 0.2562 * xy.getD 0 0 - 0.7341 * xy.getD 1 0
    let m1 := (-1.3515 - 1.7703 * xy.getD 0 0 + 5.9114 * xy.getD 1 0) / m0
    let m2 := (0.03000 - 31.4424 * xy.getD 0 0 + 30.0717 * xy.getD 1 0) / m0
    let wls0 := s_series.map (fun r => r.1)
    let s00 := s_series.map (fun r => r.2.1)
    let s10 := s_series.map (fun r => r.2.2.1)
    let s20 := s_series.map (fun r => r.2.2.2)
    let wl_first := wls0.getD 0 0
    let wl_last := wls0.getD 53 0
    let size := ((wl_last - wl_first) / inc + 1).toNat
    let wls1 := (List.range size).map (fun (i : ℕ) => wl_first + inc * (i : ℤ))
    let s01 := interp1DLinear wls0 wls1 s00
    let s11 := interp1DLinear wls0 wls1 s10
    let s21 := interp1DLinear wls0 wls1 s20
    some ((List.range size).filterMap (fun (i : ℕ) =>
      let index := wl_first + inc * (i : ℤ)
      if 380 ≤ index ∧ index ≤ 780 then
        some (s01.getD i 0 + m1 * s11.getD i 0 + m2 * s21.getD i 0)
      else none))

/-!  Illuminant generation and selection by white-balance multipliers. -/

/-- `generate_illuminant`: clears the record, installs a single `"power"`
channel in `"main"`, tags the record with the type string, and fills the
spectrum from the daylight or blackbody generator.  `calculate_blackbody_SPD`
(Planck's law) is transcendental (π, exp) and is taken as the parameter
`bb`; generated spectra use the default (380, 780, 5) shape. -/
def generate_illuminant (bb : ℤ → List ℚ) (cct : ℤ) (type : String)
    (is_daylight : Bool) : SpectralData :=
  { manufacturer := "", model := "", illuminant := type,
    data := [("main", [("power",
      if is_daylight then
        ⟨defaultShape, (calculate_daylight_SPD cct defaultShape).getD []⟩
      else (⟨defaultShape, bb cct⟩ : Spectrum))])] }

/-- Daylight candidate CCTs enumerated by `find_illuminant`:
`for (int i = 4000; i <= 25000; i += 500)`. -/
def daylightCCTs : List ℤ := (List.range 43).map (fun (k : ℕ) => 4000 + 500 * (k : ℤ))

/-- Blackbody candidate CCTs enumerated by `find_illuminant`:
`for (int i = 1500; i < 4000; i += 500)` — note the strict upper bound. -/
def blackbodyCCTs : List ℤ := (List.range 5).map (fun (k : ℕ) => 1500 + 500 * (k : ℤ))

/-- The candidate list built on the first call of
`find_illuminant(const vector<double>&)`: pre-calculated daylights, then
pre-calculated blackbodies, then every illuminant file that loaded
successfully (failed loads are popped in the source; `files` holds the
parsed contents of the successful ones). -/
def allIlluminantsInit (bb : ℤ → List ℚ) (files : List SpectralData) :
    List SpectralData :=
  (daylightCCTs.map fun i => generate_illuminant bb i ("d" ++ toString (i / 100)) true)
    ++ (blackbodyCCTs.map fun i => generate_illuminant bb i (toString i ++ "k") false)
    ++ files

/-- `std::numeric_limits<double>::max()` as an exact rational. -/
def dmax : ℚ := (2 ^ 53 - 1) * 2 ^ 971

/-- Sum of squared relative errors (`calculate_SSE` in define.h, `calSSE` at
the call sites): `Σ (tcp[i]/src[i] − 1)²`; the source asserts the two sizes
are equal. -/
def calculate_SSE (tcp src : List ℚ) : ℚ :=
  ((List.zip tcp src).map (fun p => (p.1 / p.2 - 1) ^ 2)).sum

/-- White-balance predictions for each candidate in order (the body of the
`find_illuminant` scan): `none` models a crash of a channel accessor inside
the loop. -/
def scanWB (cam : SpectralData) : List SpectralData →
    Option (List (SpectralData × List ℚ))
  | [] => some []
  | c :: rest =>
    match calWB cam c, scanWB cam rest with
    | some pr, some prs => some (pr :: prs)
    | _, _ => none

/-- `SpectralSolver::find_illuminant(const vector<double> &wb)` (named
`find_illuminant_wb` here because Lean has no overloading): precondition
check on the camera, lazy construction of the candidate list, then a scan
keeping the candidate with the smallest SSE between its predicted and the
given multipliers.  The scan is split into `scanWB` (each candidate's
white-balance prediction, which also scales the candidate in place in C++)
followed by the strict-minimum fold of the source loop. -/
def SpectralSolver.find_illuminant_wb (bb : ℤ → List ℚ)
    (files : List SpectralData) (s : SpectralSolver) (wb : List ℚ) :
    Option (Bool × SpectralSolver) :=
  if s.camera.mainBad 3 then some (false, s)
  else
    let cands := if s.all_illuminants.isEmpty then allIlluminantsInit bb files
      else s.all_illuminants
    match scanWB s.camera cands with
    | none => none
    | some scanned =>
      let best := scanned.foldl
        (fun acc pr =>
          let sse_tmp := calculate_SSE pr.2 wb
          if sse_tmp < acc.1 then (sse_tmp, pr.1, pr.2) else acc)
        (dmax, s.illuminant, s.WB_multipliers)
      some (true, { s with
        all_illuminants := scanned.map Prod.fst,
        illuminant := best.2.1,
        WB_multipliers := best.2.2 })

/-!  DNG metadata (`Metadata`, `findXYZtoCameraMtx`). -/

/-- One DNG calibration record: EXIF LightSource tag (`unsigned short`,
modelled as `ℕ`) and the two 9-element matrices. -/
structure Calibration where
  illuminant : ℕ
  camera_calibration_matrix : List ℚ
  XYZ_to_RGB_matrix : List ℚ
deriving DecidableEq

/-- DNG metadata: the two calibration records (`calibration[2]` in C++),
the neutral RGB vector and the baseline exposure. -/
structure Metadata where
  calibration0 : Calibration
  calibration1 : Calibration
  neutral_RGB : List ℚ
  baseline_exposure : ℚ
deriving DecidableEq

/-- `findXYZtoCameraMtx`.  After the two guards the source walks a mired
range calling `XYZToColorTemperature` on matrix-transformed neutral values;
that continuation involves real-valued arithmetic and is taken as the
parameter `interpolate`, so the guard behaviour — the subject of the claim —
is settled for every possible continuation.  The boolean records whether a
warning was printed on stderr. -/
def findXYZtoCameraMtx (interpolate : Metadata → List ℚ → List ℚ)
    (metadata : Metadata) (neutralRGB : List ℚ) : List ℚ × Bool :=
  if metadata.calibration0.illuminant = 0 then
    (metadata.calibration0.XYZ_to_RGB_matrix, true)
  else if neutralRGB = [] then
    (metadata.calibration0.XYZ_to_RGB_matrix, true)
  else
    (interpolate metadata neutralRGB, false)

/-!  Camera search (`find_camera`). -/

/-- ASCII lower-casing of one character, as `tolower` does per byte. -/
def lowerChar (c : Char) : Char :=
  if 'A' ≤ c ∧ c ≤ 'Z' then Char.ofNat (c.toNat + 32) else c

/-- Case-insensitive string equality (`cmp_str`, i.e. `strcasecmp`):
equality of the ASCII-lowercased character sequences. -/
def cmpStrEq (a b : String) : Bool :=
  a.data.map lowerChar == b.data.map lowerChar

/-- `SpectralSolver::find_camera` over the parsed contents of the scanned
camera files.  `SpectralData::load` is not under src/ (modelled from the
spec: a successful load replaces the record with the file's parsed
contents); the load result is ignored by the source, and each file is
loaded into the public `camera` member before the match test. -/
def SpectralSolver.find_camera (files : List SpectralData)
    (make mdl : String) (s : SpectralSolver) : Bool × SpectralSolver :=
  match files with
  | [] => (false, s)
  | c :: rest =>
    let s1 := { s with camera := c }
    if cmpStrEq c.manufacturer make ∧ cmpStrEq c.model mdl then (true, s1)
    else SpectralSolver.find_camera rest make mdl s1

/-- The camera channel picked inside `scaleLSC`: the one with the largest
maximum sample, ties resolved in the R, G, B order of the source
comparisons.  Mirrors the `max_channel` selection so that theorems can name
the dominant channel. -/
def dominantSpectrum (r g b : Spectrum) : Spectrum :=
  if r.maxValue ≥ g.maxValue ∧ r.maxValue ≥ b.maxValue then r
  else if g.maxValue ≥ r.maxValue ∧ g.maxValue ≥ b.maxValue then g
  else b

/-- The illuminant power after `scaleLSC`: the original power scaled by the
reciprocal of the integral of the dominant camera channel times the power. -/
def scaledPower (r g b p : Spectrum) : Spectrum :=
  p.scale (1 / ((dominantSpectrum r g b).mul p).integrate)

/-!  Concrete records used by the evaluation theorems and witnesses. -/

/-- A one-sample spectrum of the default shape. -/
def oneSample : Spectrum := ⟨defaultShape, [1]⟩

/-- A spectrum of the default shape with no samples. -/
def noSamples : Spectrum := ⟨defaultShape, []⟩

/-- A camera record with the required R, G, B layout. -/
def cameraRGB : SpectralData :=
  ⟨"", "", "", [("main", [("R", oneSample), ("G", oneSample), ("B", oneSample)])]⟩

/-- A camera record with R, G, B channels but empty sample lists. -/
def cameraRGBEmptySamples : SpectralData :=
  ⟨"", "", "", [("main", [("R", noSamples), ("G", noSamples), ("B", noSamples)])]⟩

/-- An illuminant record with the required single `power` channel. -/
def illuminantPower : SpectralData :=
  ⟨"", "", "d55", [("main", [("power", oneSample)])]⟩

/-- An observer record with the required X, Y, Z layout. -/
def observerXYZ : SpectralData :=
  ⟨"", "", "", [("main", [("X", oneSample), ("Y", oneSample), ("Z", oneSample)])]⟩

/-- A training record with one patch. -/
def trainingOne : SpectralData :=
  ⟨"", "", "", [("main", [("patch1", oneSample)])]⟩

/-- A solver whose four data members pass every layout precondition. -/
def validSolver : SpectralSolver :=
  ⟨cameraRGB, illuminantPower, observerXYZ, trainingOne, [], [1, 1, 1], neutral3⟩

/-- A camera record whose `"main"` set has four channels: it fails the
`size() != 3` initialisation check of `calculate_WB`, yet the `R`, `G`, `B`
accessors all succeed. -/
def cameraFourChannels : SpectralData :=
  ⟨"", "", "",
   [("main", [("R", oneSample), ("G", oneSample), ("B", oneSample),
              ("A", oneSample)])]⟩

/-- The input exhibiting the missing `return false` in `calculate_WB`: a
camera that fails the initialisation check next to a valid illuminant. -/
def fourChannelSolver : SpectralSolver :=
  ⟨cameraFourChannels, illuminantPower, SpectralData.empty, SpectralData.empty,
   [], [1, 1, 1], neutral3⟩

/-- A solver with an uninitialised-value camera layout shape but camera
channels present, used to drive the illuminant search witness. -/
def emptySampleSolver : SpectralSolver :=
  ⟨cameraRGBEmptySamples, SpectralData.empty, SpectralData.empty,
   SpectralData.empty, [], [1, 1, 1], neutral3⟩

/-- A trivial blackbody oracle (no samples). -/
def bbZero : ℤ → List ℚ := fun _ => []

/-- A DNG metadata record whose first calibration illuminant tag is 0. -/
def metadataTagZero : Metadata :=
  ⟨⟨0, [], [1, 2, 3, 4, 5, 6, 7, 8, 9]⟩, ⟨0, [], []⟩, [1, 1, 1], 0⟩

/-!  CCT ↔ XYZ via the Robertson table.  This part of the code computes with
`double` square roots, so it is embedded over `ℝ` (the definitions are
necessarily noncomputable; every decidable fact about the tables is carried
by the integer-scaled copies below).  The table stores five-decimal values;
each row is kept as `(u·10⁵, v·10⁵, t·10⁵) ∈ ℤ³` with the real value being
the entry divided by 10⁵, which represents the source literals exactly. -/

/-- The Robertson (u, v, t) table from define.h, scaled by 10⁵. -/
def RobertsonUVT : List (ℤ × ℤ × ℤ) :=
  [(18006, 26352, -24341),
   (18066, 26589, -25479),
   (18133, 26846, -26876),
   (18208, 27119, -28539),
   (18293, 27407, -30470),
   (18388, 27709, -32675),
   (18494, 28021, -35156),
   (18611, 28342, -37915),
   (18740, 28668, -40955),
   (18880, 28997, -44278),
   (19032, 29326, -47888),
   (19462, 30141, -58204),
   (19962, 30921, -70471),
   (20525, 31647, -84901),
   (21142, 32312, -101820),
   (21807, 32909, -121680),
   (22511, 33439, -145120),
   (23247, 33904, -172980),
   (24010, 34308, -206370),
   (24792, 34655, -246810),
   (25591, 34951, -296410),
   (26400, 35200, -358140),
   (27218, 35407, -436330),
   (28039, 35577, -537620),
   (28863, 35714, -672620),
   (29685, 35823, -859550),
   (30505, 35907, -1132400),
   (31320, 35968, -1562800),
   (32129, 36011, -2332500),
   (32931, 36038, -4077000),
   (33724, 36051, -11645000)]

/-- The Robertson mired values from define.h. -/
def RobertsonMired : List ℚ :=
  [1.0e-10, 10, 20, 30, 40, 50, 60, 70,
   80, 90, 100, 125, 150, 175, 200, 225,
   250, 275, 300, 325, 350, 375, 400, 425,
   450, 475, 500, 525, 550, 575, 600]

/-- Row access into the scaled Robertson table. -/
def rUVT (i : ℕ) : ℤ × ℤ × ℤ := RobertsonUVT.getD i (0, 0, 0)

/-- The `u` coordinate of Robertson row `i` as a real. -/
noncomputable def uR (i : ℕ) : ℝ := ((rUVT i).1 : ℝ) / 100000

/-- The `v` coordinate of Robertson row `i` as a real. -/
noncomputable def vR (i : ℕ) : ℝ := ((rUVT i).2.1 : ℝ) / 100000

/-- The isotherm slope `t` of Robertson row `i` as a real. -/
noncomputable def tR (i : ℕ) : ℝ := ((rUVT i).2.2 : ℝ) / 100000

/-- Robertson row `i` in the `vector<double>` form the walk passes around. -/
noncomputable def robertsonRow (i : ℕ) : List ℝ := [uR i, vR i, tR i]

/-- Robertson mired value `i` as a real. -/
noncomputable def rmiredR (i : ℕ) : ℝ := ((RobertsonMired.getD i 0 : ℚ) : ℝ)

/-- The unnormalised signed distance of a point from Robertson isotherm
`j`: the numerator of `robertsonLength` at a table point (the `1/√(1+t²)`
factor removed).  `realE k j` is that quantity for table point `k` against
isotherm `j`. -/
noncomputable def realE (k j : ℕ) : ℝ :=
  (vR k - vR j) - tR j * (uR k - uR j)

/-- Integer-scaled copy (×10¹⁰) of `realE`, for decidable table facts. -/
def EIntRob (k j : ℕ) : ℤ :=
  ((rUVT k).2.1 - (rUVT j).2.1) * 100000 - (rUVT j).2.2 * ((rUVT k).1 - (rUVT j).1)

/-- `xy_to_XYZ` from define.h at `T = double`: `[x, y, 1 − x − y]`. -/
noncomputable def xy_to_XYZ (xy : List ℝ) : List ℝ :=
  [xy.getD 0 0, xy.getD 1 0, 1 - xy.getD 0 0 - xy.getD 1 0]

/-- `uv_to_xy` from define.h: `[3u, 2v]` scaled by `1/(2u − 8v + 4)`. -/
noncomputable def uv_to_xy (uv : List ℝ) : List ℝ :=
  [3 * uv.getD 0 0 * (1 / (2 * uv.getD 0 0 - 8 * uv.getD 1 0 + 4)),
   2 * uv.getD 1 0 * (1 / (2 * uv.getD 0 0 - 8 * uv.getD 1 0 + 4))]

/-- `uv_to_XYZ` from define.h. -/
noncomputable def uv_to_XYZ (uv : List ℝ) : List ℝ := xy_to_XYZ (uv_to_xy uv)

/-- `XYZ_to_uv` from define.h: `[4X, 6Y]` scaled by `1/(X + 15Y + 3Z)`. -/
noncomputable def XYZ_to_uv (XYZ : List ℝ) : List ℝ :=
  [4 * XYZ.getD 0 0 * (1 / (XYZ.getD 0 0 + 15 * XYZ.getD 1 0 + 3 * XYZ.getD 2 0)),
   6 * XYZ.getD 1 0 * (1 / (XYZ.getD 0 0 + 15 * XYZ.getD 1 0 + 3 * XYZ.getD 2 0))]

/-- `robertsonLength`: signed distance of `uv` from the isotherm of a table
row, measured along the unit slope vector. -/
noncomputable def robertsonLength (uv uvt : List ℝ) : ℝ :=
  let t := uvt.getD 2 0
  let sign : ℝ := if t < 0 then -1 else if 0 < t then 1 else 0
  let slope0 := -sign / Real.sqrt (1 + t * t)
  let slope1 := t * slope0
  slope0 * (uv.getD 1 0 - uvt.getD 1 0) - slope1 * (uv.getD 0 0 - uvt.getD 0 0)

/-- The scan loop of `XYZToColorTemperature`: walk the table from row `i`
carrying the previous length, stop at the first non-positive length,
returning `(stop index, RDprevious, RDthis)`.  When the loop runs off the
table only the index is used by the caller; the model returns 0 in the
unused length slot. -/
noncomputable def robertsonWalk (uv : List ℝ) (i : ℕ) (RDprevious : ℝ) :
    ℕ × ℝ × ℝ :=
  if h : i < 31 then
    let RDthis := robertsonLength uv (robertsonRow i)
    if RDthis ≤ 0 then (i, RDprevious, RDthis)
    else robertsonWalk uv (i + 1) RDthis
  else (i, RDprevious, 0)
termination_by 31 - i

/-- `XYZToColorTemperature`: Robertson reverse lookup with linear
interpolation of mired between the bracketing isotherms, clamped to
[2000 K, 50000 K]. -/
noncomputable def XYZToColorTemperature (XYZ : List ℝ) : ℝ :=
  let uv := XYZ_to_uv XYZ
  let w := robertsonWalk uv 0 0
  let i := w.1
  let mired :=
    if i ≤ 0 then rmiredR 0
    else if 31 ≤ i then rmiredR 30
    else rmiredR (i - 1) + w.2.1 * (rmiredR i - rmiredR (i - 1)) / (w.2.1 - w.2.2)
  let cct := 1000000 / mired
  max 2000 (min 50000 cct)

/-- The index loop of `colorTemperatureToXYZ`: the first row whose mired is
at least the requested one. -/
noncomputable def miredIndex (mired : ℝ) (i : ℕ) : ℕ :=
  if h : i < 31 then
    if rmiredR i ≥ mired then i else miredIndex mired (i + 1)
  else i
termination_by 31 - i

/-- `colorTemperatureToXYZ`: Robertson forward lookup, interpolating `(u,v)`
between the bracketing rows, then `uv_to_XYZ`. -/
noncomputable def colorTemperatureToXYZ (cct : ℝ) : List ℝ :=
  let mired := 1000000 / cct
  let i := miredIndex mired 0
  let uv : List ℝ :=
    if i ≤ 0 then [uR 0, vR 0]
    else if 31 ≤ i then [uR 30, vR 30]
    else
      let weight := (mired - rmiredR (i - 1)) / (rmiredR i - rmiredR (i - 1))
      [weight * uR i + (1 - weight) * uR (i - 1),
       weight * vR i + (1 - weight) * vR (i - 1)]
  uv_to_XYZ uv

/-!  Theorems. -/

/-- Keys absent from an association list are not found by `lookup`. -/
theorem lookup_eq_none_of_not_mem_keys {α β : Type} [BEq α] [LawfulBEq α]
    (l : List (α × β)) (t : α) (h : t ∉ l.map Prod.fst) :
    l.lookup t = none := by
  induction l with
  | nil => rfl
  | cons p rest ih =>
    simp only [List.map_cons, List.mem_cons] at h
    push_neg at h
    simp only [List.lookup]
    have : (t == p.1) = false := by
      simp [h.1]
    rw [this]
    exact ih h.2

/-- C8: the EXIF LightSource decoder returns `tag − 32768` for direct
Kelvin encodings (in particular `lightSourceToColorTemp (32768 + k) = k`
for every representable non-negative `k`), the tabulated temperatures for
tags 0, 1, 2, 3, 10, 17, 18, 19, 20, 21, 22, and 5500 for any other tag
below 32768. -/
theorem C8_light_source_decoder :
    (∀ k : ℕ, k ≤ 32767 → lightSourceToColorTemp (32768 + k) = k) ∧
    lightSourceToColorTemp 0 = 5500 ∧
    lightSourceToColorTemp 1 = 5500 ∧
    lightSourceToColorTemp 2 = 3500 ∧
    lightSourceToColorTemp 3 = 3400 ∧
    lightSourceToColorTemp 10 = 5550 ∧
    lightSourceToColorTemp 17 = 2856 ∧
    lightSourceToColorTemp 18 = 4874 ∧
    lightSourceToColorTemp 19 = 6774 ∧
    lightSourceToColorTemp 20 = 5500 ∧
    lightSourceToColorTemp 21 = 6500 ∧
    lightSourceToColorTemp 22 = 7500 ∧
    (∀ tag : ℕ, tag < 32768 → tag ∉ LightSourceEXIFTagValues.map Prod.fst →
      lightSourceToColorTemp tag = 5500) := by
  refine ⟨?_, by decide, by decide, by decide, by decide, by decide, by decide,
    by decide, by decide, by decide, by decide, by decide, ?_⟩
  · intro k _
    simp [lightSourceToColorTemp]
  · intro tag hlt hmem
    have hnone := lookup_eq_none_of_not_mem_keys LightSourceEXIFTagValues tag hmem
    simp [lightSourceToColorTemp, Nat.not_le_of_lt hlt, hnone]

/-- C8 witness: a direct Kelvin encoding decoded at a concrete tag. -/
theorem C8_light_source_decoder_witness :
    lightSourceToColorTemp (32768 + 300) = 300 :=
  C8_light_source_decoder.1 300 (by decide)

/-- C1: whenever the spectral-path `calculate_IDT_matrix` reports success,
each row of the written 3×3 IDT matrix sums to exactly 1: the six fitted
parameters fill two entries per row and the third entry of row `i` is
`1 − B(2i) − B(2i+1)`. -/
theorem C1_idt_rows_sum_to_one (s : SpectralSolver) (fit : FitSummary)
    (hsuccess : (s.calculate_IDT_matrix fit).1 = true) :
    (s.calculate_IDT_matrix fit).2.IDT_matrix.map List.sum = [1, 1, 1] := by
  unfold SpectralSolver.calculate_IDT_matrix at hsuccess ⊢
  split_ifs at hsuccess ⊢ <;> try simp at hsuccess
  unfold curveFit at hsuccess ⊢
  split_ifs at hsuccess ⊢ <;> try simp at hsuccess
  simp only [List.map_cons, List.map_nil, List.sum_cons, List.sum_nil,
    List.cons.injEq, and_true]
  refine ⟨by ring, by ring, by ring⟩

/-- C1 witness: a successful fit on a fully initialised solver. -/
theorem C1_idt_rows_sum_to_one_witness :
    (validSolver.calculate_IDT_matrix ⟨fun _ => 0, 1⟩).2.IDT_matrix.map List.sum
      = [1, 1, 1] :=
  C1_idt_rows_sum_to_one validSolver ⟨fun _ => 0, 1⟩ rfl

/-- C4: when the four data preconditions hold but the NLLS driver reports
no successful step, the spectral-path `calculate_IDT_matrix` returns false,
the solver is unchanged, and its IDT matrix is still the identity it was
initialised with: no partial result is written. -/
theorem C4_solve_failure_leaves_identity (s : SpectralSolver) (fit : FitSummary)
    (hcam : s.camera.mainBad 3 = false)
    (hill : s.illuminant.mainBad 1 = false)
    (hobs : s.observer.mainBad 3 = false)
    (htrain : s.training_data.mainMissingOrEmpty = false)
    (hnosteps : fit.num_successful_steps = 0)
    (hid : s.IDT_matrix = neutral3) :
    s.calculate_IDT_matrix fit = (false, s) ∧
      (s.calculate_IDT_matrix fit).2.IDT_matrix = neutral3 := by
  have h : s.calculate_IDT_matrix fit = (false, s) := by
    simp [SpectralSolver.calculate_IDT_matrix, hcam, hill, hobs, htrain,
      curveFit, hnosteps]
  exact ⟨h, by rw [h]; exact hid⟩

/-- C4 witness: a failed fit on a fully initialised fresh solver. -/
theorem C4_solve_failure_leaves_identity_witness :
    validSolver.calculate_IDT_matrix ⟨fun _ => 0, 0⟩ = (false, validSolver) ∧
      (validSolver.calculate_IDT_matrix ⟨fun _ => 0, 0⟩).2.IDT_matrix = neutral3 :=
  C4_solve_failure_leaves_identity validSolver ⟨fun _ => 0, 0⟩
    rfl rfl rfl rfl rfl rfl

/-- C5: evaluation of `calculate_WB` on a camera failing its own
initialisation check (`main` holds four channels) next to a valid
illuminant: the camera error is printed, yet the function returns `true`,
because the source prints the message without the `return false` present in
every sibling check.  This contradicts both the printed diagnostic and the
documented failure semantics. -/
theorem C5_calculate_WB_missing_return :
    fourChannelSolver.camera.mainBad 3 = true ∧
    fourChannelSolver.calculate_WB.map (fun x => (x.1, x.2.2))
      = some (true, [cameraErrorWB]) := by
  constructor
  · rfl
  · rfl

/-- C6: for every DNG metadata value and every possible interpolation
continuation, if the first calibration's illuminant tag is 0 or the neutral
RGB vector is empty, `findXYZtoCameraMtx` returns the first calibration's
XYZ-to-RGB matrix unchanged and emits a warning; the interpolation is never
consulted. -/
theorem C6_dng_guard_returns_first_calibration
    (interpolate : Metadata → List ℚ → List ℚ) (metadata : Metadata)
    (h : metadata.calibration0.illuminant = 0 ∨ metadata.neutral_RGB = []) :
    findXYZtoCameraMtx interpolate metadata metadata.neutral_RGB
      = (metadata.calibration0.XYZ_to_RGB_matrix, true) := by
  unfold findXYZtoCameraMtx
  rcases h with h | h
  · rw [if_pos h]
  · split_ifs <;> simp [h]

/-- C6 witness: the guard taken on a concrete metadata record with
calibration tag 0. -/
theorem C6_dng_guard_returns_first_calibration_witness :
    findXYZtoCameraMtx (fun _ _ => []) metadataTagZero metadataTagZero.neutral_RGB
      = (metadataTagZero.calibration0.XYZ_to_RGB_matrix, true) :=
  C6_dng_guard_returns_first_calibration (fun _ _ => []) metadataTagZero
    (Or.inl rfl)

/-- C10: `find_camera` loads every scanned file into the public camera
member before testing it, so a failed search over a non-empty file list
leaves the camera holding the last file scanned — regardless of the
camera's value before the call. -/
theorem C10_find_camera_not_atomic (files : List SpectralData)
    (make mdl : String) (s : SpectralSolver) (hne : files ≠ [])
    (hfail : (SpectralSolver.find_camera files make mdl s).1 = false) :
    (SpectralSolver.find_camera files make mdl s).2.camera = files.getLast hne := by
  induction files generalizing s with
  | nil => exact absurd rfl hne
  | cons c rest ih =>
    rw [SpectralSolver.find_camera] at hfail ⊢
    by_cases hm : (cmpStrEq c.manufacturer make = true ∧ cmpStrEq c.model mdl = true)
    · rw [if_pos hm] at hfail
      simp at hfail
    · rw [if_neg hm] at hfail ⊢
      cases rest with
      | nil =>
        rw [SpectralSolver.find_camera]
        simp [List.getLast]
      | cons d rest2 =>
        rw [ih _ (by simp) hfail]
        simp [List.getLast_cons]

/-- Collapsing a conditional `filterMap` to a `filter` for length counting. -/
theorem length_filterMap_ite {β : Type} (l : List ℕ) (p : ℕ → Prop)
    [DecidablePred p] (f : ℕ → β) :
    (l.filterMap (fun i => if p i then some (f i) else none)).length
      = (l.filter (fun i => decide (p i))).length := by
  induction l with
  | nil => rfl
  | cons a l ih =>
    by_cases h : p a <;>
      simp [List.filterMap_cons, List.filter_cons, h, ih]

/-- C9: for every Kelvin-form CCT in [4000, 25000], the daylight SPD
generator on the default (380, 780, 5) shape succeeds and emits exactly 81
samples: the S-series bases on the 300–830 nm 10 nm grid are resampled to
5 nm and only the wavelengths from 380 to 780 inclusive are kept. -/
theorem C9_daylight_spd_has_81_samples (cct : ℤ)
    (hlo : 4000 ≤ cct) (hhi : cct ≤ 25000) :
    (calculate_daylight_SPD cct defaultShape).map List.length = some 81 := by
  have h1 : ¬(40 ≤ cct ∧ cct ≤ 250) := by omega
  have h2 : 4000 ≤ cct ∧ cct ≤ 25000 := ⟨hlo, hhi⟩
  have hlen : ∀ f : ℕ → ℚ,
      (List.filterMap
        (fun (i : ℕ) => if 380 ≤ 300 + 5 * (i : ℤ) ∧ 300 + 5 * (i : ℤ) ≤ 780
          then some (f i) else none)
        (List.range 107)).length = 81 := by
    intro f
    rw [length_filterMap_ite (List.range 107)
      (fun (i : ℕ) => 380 ≤ 300 + 5 * (i : ℤ) ∧ 300 + 5 * (i : ℤ) ≤ 780) f]
    decide
  have hA : (List.map (fun (r : ℤ × ℚ × ℚ × ℚ) => r.1) s_series).getD 0 0
      = 300 := by decide
  have hB : (List.map (fun (r : ℤ × ℚ × ℚ × ℚ) => r.1) s_series).getD 53 0
      = 830 := by decide
  simp only [calculate_daylight_SPD, if_neg h1, if_pos h2, Option.map_some',
    hA, hB, show defaultShape.step = (5 : ℤ) from rfl,
    show (((830 : ℤ) - 300) / 5 + 1).toNat = 107 from rfl]
  exact congrArg some (hlen _)

/-- C9 witness: the generator evaluated at 6500 K. -/
theorem C9_daylight_spd_has_81_samples_witness :
    (calculate_daylight_SPD 6500 defaultShape).map List.length = some 81 :=
  C9_daylight_spd_has_81_samples 6500 (by decide) (by decide)

/-- Scaling the right operand of a pointwise spectrum product scales the
list sum. -/
theorem sum_zipWith_mul_scale (as bs : List ℚ) (q : ℚ) :
    (List.zipWith (fun a b => a * (b * q)) as bs).sum
      = (List.zipWith (fun a b => a * b) as bs).sum * q := by
  induction as generalizing bs with
  | nil => simp
  | cons a as ih =>
    cases bs with
    | nil => simp
    | cons b bs =>
      simp only [List.zipWith_cons_cons, List.sum_cons, ih]
      ring

/-- Scaling the right operand of a pointwise spectrum product scales the
integral. -/
theorem integrate_mul_scale (a b : Spectrum) (q : ℚ) :
    (a.mul (b.scale q)).integrate = (a.mul b).integrate * q := by
  unfold Spectrum.integrate Spectrum.mul Spectrum.scale
  simp only [List.zipWith_map_right]
  rw [show (fun (x v : ℚ) => x * (fun v => v * q) v) = fun a b => a * (b * q)
    from rfl]
  rw [sum_zipWith_mul_scale]
  ring

/-- On the canonical camera and illuminant layouts, `scaleLSC` scales the
power channel by the reciprocal integral of the dominant channel times the
power. -/
theorem scaleLSC_layout (camD illD : SpectralData) (cr cg cb p : Spectrum)
    (hc : camD.data = [("main", [("R", cr), ("G", cg), ("B", cb)])])
    (hi : illD.data = [("main", [("power", p)])]) :
    scaleLSC camD illD
      = some (illD.scalePower (1 / ((dominantSpectrum cr cg cb).mul p).integrate)) := by
  have hR : camD.channel "R" = some cr := by
    simp [SpectralData.channel, SpectralData.set, hc, List.lookup]
  have hG : camD.channel "G" = some cg := by
    simp [SpectralData.channel, SpectralData.set, hc, List.lookup]
  have hB : camD.channel "B" = some cb := by
    simp [SpectralData.channel, SpectralData.set, hc, List.lookup]
  have hP : illD.channel "power" = some p := by
    simp [SpectralData.channel, SpectralData.set, hi, List.lookup]
  unfold scaleLSC dominantSpectrum
  by_cases h1 : (cr.maxValue ≥ cg.maxValue ∧ cr.maxValue ≥ cb.maxValue)
  · simp [h1, hR, hG, hB, hP]
  · by_cases h2 : (cg.maxValue ≥ cr.maxValue ∧ cg.maxValue ≥ cb.maxValue)
    · simp [h1, h2, hR, hG, hB, hP]
    · simp [h1, h2, hR, hG, hB, hP]

/-- The power channel of a scaled illuminant on the canonical layout. -/
theorem scalePower_channel (illD : SpectralData) (p : Spectrum) (q : ℚ)
    (hi : illD.data = [("main", [("power", p)])]) :
    (illD.scalePower q).channel "power" = some (p.scale q) := by
  simp [SpectralData.scalePower, SpectralData.channel, SpectralData.set, hi,
    List.lookup]

/-- On the canonical layouts, `calWB` returns the scaled illuminant and the
green-normalised multiplier vector. -/
theorem calWB_layout (camD illD : SpectralData) (cr cg cb p : Spectrum)
    (hc : camD.data = [("main", [("R", cr), ("G", cg), ("B", cb)])])
    (hi : illD.data = [("main", [("power", p)])]) :
    calWB camD illD
      = some (illD.scalePower (1 / ((dominantSpectrum cr cg cb).mul p).integrate),
          [(cg.mul (scaledPower cr cg cb p)).integrate /
             (cr.mul (scaledPower cr cg cb p)).integrate, 1,
           (cg.mul (scaledPower cr cg cb p)).integrate /
             (cb.mul (scaledPower cr cg cb p)).integrate]) := by
  have hR : camD.channel "R" = some cr := by
    simp [SpectralData.channel, SpectralData.set, hc, List.lookup]
  have hG : camD.channel "G" = some cg := by
    simp [SpectralData.channel, SpectralData.set, hc, List.lookup]
  have hB : camD.channel "B" = some cb := by
    simp [SpectralData.channel, SpectralData.set, hc, List.lookup]
  unfold calWB
  rw [scaleLSC_layout camD illD cr cg cb p hc hi]
  simp [hR, hG, hB, scalePower_channel illD p _ hi, scaledPower]

/-- C2: on an initialised camera (channels R, G, B) and illuminant (channel
power), `calculate_WB` succeeds and stores `[g/r, 1, g/b]`, where r, g and
b integrate the camera channels against the power scaled so that the
dominant channel's integral is exactly 1; in particular the stored G
multiplier is the literal constant 1. -/
theorem C2_calculate_WB_formula (s : SpectralSolver) (cr cg cb p : Spectrum)
    (hc : s.camera.data = [("main", [("R", cr), ("G", cg), ("B", cb)])])
    (hi : s.illuminant.data = [("main", [("power", p)])])
    (hnz : ((dominantSpectrum cr cg cb).mul p).integrate ≠ 0) :
    s.calculate_WB = some (true,
      { s with
        illuminant := { s.illuminant with
          data := [("main", [("power", scaledPower cr cg cb p)])] },
        WB_multipliers :=
          [(cg.mul (scaledPower cr cg cb p)).integrate /
             (cr.mul (scaledPower cr cg cb p)).integrate, 1,
           (cg.mul (scaledPower cr cg cb p)).integrate /
             (cb.mul (scaledPower cr cg cb p)).integrate] }, [])
    ∧ ((dominantSpectrum cr cg cb).mul (scaledPower cr cg cb p)).integrate = 1 := by
  have hcamOK : s.camera.mainBad 3 = false := by
    simp [SpectralData.mainBad, SpectralData.set, hc, List.lookup]
  have hillOK : s.illuminant.mainBad 1 = false := by
    simp [SpectralData.mainBad, SpectralData.set, hi, List.lookup]
  constructor
  · have hill : s.illuminant.scalePower
        (1 / ((dominantSpectrum cr cg cb).mul p).integrate)
        = { s.illuminant with
            data := [("main", [("power", scaledPower cr cg cb p)])] } := by
      simp [SpectralData.scalePower, hi, scaledPower]
    unfold SpectralSolver.calculate_WB
    rw [calWB_layout s.camera s.illuminant cr cg cb p hc hi, hill]
    simp [hcamOK, hillOK]
  · unfold scaledPower
    rw [integrate_mul_scale]
    exact mul_one_div_cancel hnz

/-- C2 witness: the formula evaluated on a concrete one-sample camera and
illuminant. -/
theorem C2_calculate_WB_formula_witness :
    validSolver.calculate_WB = some (true,
      { validSolver with
        illuminant := { validSolver.illuminant with
          data := [("main", [("power",
            scaledPower oneSample oneSample oneSample oneSample)])] },
        WB_multipliers :=
          [(oneSample.mul (scaledPower oneSample oneSample oneSample oneSample)).integrate /
             (oneSample.mul (scaledPower oneSample oneSample oneSample oneSample)).integrate, 1,
           (oneSample.mul (scaledPower oneSample oneSample oneSample oneSample)).integrate /
             (oneSample.mul (scaledPower oneSample oneSample oneSample oneSample)).integrate] }, [])
    ∧ ((dominantSpectrum oneSample oneSample oneSample).mul
        (scaledPower oneSample oneSample oneSample oneSample)).integrate = 1 :=
  C2_calculate_WB_formula validSolver oneSample oneSample oneSample oneSample
    rfl rfl
    (by norm_num [dominantSpectrum, Spectrum.maxValue, Spectrum.mul,
      Spectrum.integrate, oneSample, defaultShape])

/-- C3 counterexample: the blackbody candidates stop at 3500 K.  The source
loop `for (int i = 1500; i < 4000; i += 500)` never generates the 4000 K
blackbody the claim includes: no candidate carries the `4000k` tag, although
the 3500 K (and lower) blackbodies are present. -/
theorem C3_no_blackbody_4000_counterexample :
    blackbodyCCTs = [1500, 2000, 2500, 3000, 3500] ∧
    (4000 : ℤ) ∉ blackbodyCCTs ∧
    "4000k" ∉ (allIlluminantsInit bbZero []).map SpectralData.illuminant ∧
    "3500k" ∈ (allIlluminantsInit bbZero []).map SpectralData.illuminant := by
  refine ⟨by decide, by decide, by decide, by decide⟩

/-- The daylight candidate CCTs are exactly the multiples of 500 from 4000
to 25000 inclusive. -/
theorem mem_daylightCCTs (cct : ℤ) :
    cct ∈ daylightCCTs ↔ 4000 ≤ cct ∧ cct ≤ 25000 ∧ (cct - 4000) % 500 = 0 := by
  unfold daylightCCTs
  constructor
  · intro h
    rw [List.mem_map] at h
    obtain ⟨k, hk, hkeq⟩ := h
    rw [List.mem_range] at hk
    refine ⟨by omega, by omega, by omega⟩
  · rintro ⟨hl, hh, hm⟩
    rw [List.mem_map]
    refine ⟨(cct - 4000).toNat / 500, ?_, ?_⟩
    · rw [List.mem_range]
      omega
    · omega

/-- The blackbody candidate CCTs are exactly the multiples of 500 from 1500
to 3500 inclusive. -/
theorem mem_blackbodyCCTs (cct : ℤ) :
    cct ∈ blackbodyCCTs ↔ 1500 ≤ cct ∧ cct ≤ 3500 ∧ (cct - 1500) % 500 = 0 := by
  unfold blackbodyCCTs
  constructor
  · intro h
    rw [List.mem_map] at h
    obtain ⟨k, hk, hkeq⟩ := h
    rw [List.mem_range] at hk
    refine ⟨by omega, by omega, by omega⟩
  · rintro ⟨hl, hh, hm⟩
    rw [List.mem_map]
    refine ⟨(cct - 1500).toNat / 500, ?_, ?_⟩
    · rw [List.mem_range]
      omega
    · omega

/-- When every candidate's white balance succeeds, the scan succeeds, and
its output corresponds elementwise to the candidates. -/
theorem scanWB_total (cam : SpectralData) (l : List SpectralData)
    (h : ∀ c ∈ l, (calWB cam c).isSome = true) :
    ∃ out, scanWB cam l = some out ∧
      (∀ pr ∈ out, ∃ c ∈ l, calWB cam c = some pr) ∧
      (∀ c ∈ l, ∀ pr, calWB cam c = some pr → pr ∈ out) := by
  induction l with
  | nil => exact ⟨[], rfl, by simp, by simp⟩
  | cons c rest ih =>
    obtain ⟨pr0, hpr0⟩ := Option.isSome_iff_exists.mp (h c (by simp))
    obtain ⟨out, hout, hback, hfwd⟩ := ih (fun d hd => h d (by simp [hd]))
    refine ⟨pr0 :: out, ?_, ?_, ?_⟩
    · simp [scanWB, hpr0, hout]
    · intro pr hpr
      rcases List.mem_cons.mp hpr with h1 | h1
      · exact ⟨c, by simp, h1 ▸ hpr0⟩
      · obtain ⟨d, hd, hcal⟩ := hback pr h1
        exact ⟨d, by simp [hd], hcal⟩
    · intro d hd pr hcal
      rcases List.mem_cons.mp hd with h1 | h1
      · subst h1
        rw [hpr0] at hcal
        simp at hcal
        simp [hcal]
      · exact List.mem_cons_of_mem _ (hfwd d h1 pr hcal)

/-- The strict-minimum fold of `find_illuminant`: the result is the initial
accumulator or the first minimiser, its key is a lower bound of every
scanned key and of the initial key. -/
theorem foldl_min_first (f : SpectralData × List ℚ → ℚ)
    (l : List (SpectralData × List ℚ)) (acc : ℚ × SpectralData × List ℚ) :
    ((l.foldl (fun acc pr => if f pr < acc.1 then (f pr, pr.1, pr.2) else acc) acc)
        = acc
      ∨ ∃ pr ∈ l,
        (l.foldl (fun acc pr => if f pr < acc.1 then (f pr, pr.1, pr.2) else acc) acc)
          = (f pr, pr.1, pr.2)) ∧
    (l.foldl (fun acc pr => if f pr < acc.1 then (f pr, pr.1, pr.2) else acc) acc).1
      ≤ acc.1 ∧
    ∀ pr ∈ l,
      (l.foldl (fun acc pr => if f pr < acc.1 then (f pr, pr.1, pr.2) else acc) acc).1
        ≤ f pr := by
  induction l generalizing acc with
  | nil => exact ⟨Or.inl rfl, le_refl _, by simp⟩
  | cons q rest ih =>
    simp only [List.foldl_cons]
    by_cases hq : f q < acc.1
    · rw [if_pos hq]
      obtain ⟨hcase, hle, hall⟩ := ih (f q, q.1, q.2)
      refine ⟨?_, ?_, ?_⟩
      · rcases hcase with h | ⟨pr, hpr, h⟩
        · exact Or.inr ⟨q, by simp, h⟩
        · exact Or.inr ⟨pr, by simp [hpr], h⟩
      · exact le_trans hle (le_of_lt hq)
      · intro pr hpr
        rcases List.mem_cons.mp hpr with h1 | h1
        · subst h1
          exact hle
        · exact hall pr h1
    · rw [if_neg hq]
      obtain ⟨hcase, hle, hall⟩ := ih acc
      refine ⟨?_, hle, ?_⟩
      · rcases hcase with h | ⟨pr, hpr, h⟩
        · exact Or.inl h
        · exact Or.inr ⟨pr, by simp [hpr], h⟩
      · intro pr hpr
        rcases List.mem_cons.mp hpr with h1 | h1
        · subst h1
          exact le_trans hle (not_lt.mp hq)
        · exact hall pr h1

/-- C3 (amended): with an initialised camera and a fresh solver, the
illuminant search enumerates the daylight candidates at every 500 K from
4000 K to 25000 K, the blackbody candidates at every 500 K from 1500 K up to
and including 3500 K only (4000 K is excluded by the `i < 4000` loop bound),
and every database illuminant file; it computes each candidate's predicted
white balance and its sum of squared relative errors against the target, and
the first candidate attaining the minimal SSE becomes the chosen illuminant
with its multipliers stored. -/
theorem C3_find_illuminant_minimises_sse (bb : ℤ → List ℚ)
    (files : List SpectralData) (s : SpectralSolver) (wb : List ℚ)
    (hcam : s.camera.mainBad 3 = false)
    (hfresh : s.all_illuminants = [])
    (hall : ∀ c ∈ allIlluminantsInit bb files, (calWB s.camera c).isSome = true)
    (hbeat : ∃ c ∈ allIlluminantsInit bb files, ∃ pr, calWB s.camera c = some pr ∧
      calculate_SSE pr.2 wb < dmax) :
    (∀ cct : ℤ, cct ∈ daylightCCTs ↔
      4000 ≤ cct ∧ cct ≤ 25000 ∧ (cct - 4000) % 500 = 0) ∧
    (∀ cct : ℤ, cct ∈ blackbodyCCTs ↔
      1500 ≤ cct ∧ cct ≤ 3500 ∧ (cct - 1500) % 500 = 0) ∧
    ∃ scanned best,
      scanWB s.camera (allIlluminantsInit bb files) = some scanned ∧
      best ∈ scanned ∧
      (∀ pr ∈ scanned, calculate_SSE best.2 wb ≤ calculate_SSE pr.2 wb) ∧
      s.find_illuminant_wb bb files wb = some (true,
        { s with all_illuminants := scanned.map Prod.fst,
                 illuminant := best.1, WB_multipliers := best.2 }) := by
  refine ⟨mem_daylightCCTs, mem_blackbodyCCTs, ?_⟩
  obtain ⟨scanned, hscan, hback, hfwd⟩ :=
    scanWB_total s.camera (allIlluminantsInit bb files) hall
  obtain ⟨c0, hc0mem, pr0, hpr0, hsse0⟩ := hbeat
  have hpr0mem : pr0 ∈ scanned := hfwd c0 hc0mem pr0 hpr0
  obtain ⟨hcase, hle, hmin⟩ :=
    foldl_min_first (fun pr => calculate_SSE pr.2 wb) scanned
      (dmax, s.illuminant, s.WB_multipliers)
  set r := scanned.foldl
    (fun acc pr => if calculate_SSE pr.2 wb < acc.1
      then (calculate_SSE pr.2 wb, pr.1, pr.2) else acc)
    (dmax, s.illuminant, s.WB_multipliers) with hr
  have hrne : ¬ r = (dmax, s.illuminant, s.WB_multipliers) ∨
      r.1 < dmax := by
    right
    exact lt_of_le_of_lt (hmin pr0 hpr0mem) hsse0
  obtain ⟨best, hbestmem, hbesteq⟩ :
      ∃ best ∈ scanned, r = (calculate_SSE best.2 wb, best.1, best.2) := by
    rcases hcase with h | h
    · exfalso
      have : r.1 < dmax := lt_of_le_of_lt (hmin pr0 hpr0mem) hsse0
      rw [h] at this
      exact lt_irrefl _ this
    · exact h
  refine ⟨scanned, best, hscan, hbestmem, ?_, ?_⟩
  · intro pr hpr
    have := hmin pr hpr
    rw [hbesteq] at this
    exact this
  · unfold SpectralSolver.find_illuminant_wb
    rw [hcam]
    simp only [Bool.false_eq_true, if_false, hfresh, List.isEmpty_nil, if_true,
      ite_true, ite_false]
    rw [hscan]
    simp only []
    rw [← hr, hbesteq]

/-- C3 witness: the search run on a camera whose channels carry no samples
(so every candidate's prediction is computable), an empty file list and a
trivial blackbody oracle. -/
theorem C3_find_illuminant_minimises_sse_witness :
    (∀ cct : ℤ, cct ∈ daylightCCTs ↔
      4000 ≤ cct ∧ cct ≤ 25000 ∧ (cct - 4000) % 500 = 0) ∧
    (∀ cct : ℤ, cct ∈ blackbodyCCTs ↔
      1500 ≤ cct ∧ cct ≤ 3500 ∧ (cct - 1500) % 500 = 0) ∧
    ∃ scanned best,
      scanWB emptySampleSolver.camera (allIlluminantsInit bbZero []) = some scanned ∧
      best ∈ scanned ∧
      (∀ pr ∈ scanned, calculate_SSE best.2 [1, 1, 1] ≤ calculate_SSE pr.2 [1, 1, 1]) ∧
      emptySampleSolver.find_illuminant_wb bbZero [] [1, 1, 1] = some (true,
        { emptySampleSolver with
            all_illuminants := scanned.map Prod.fst,
            illuminant := best.1, WB_multipliers := best.2 }) := by
  have hwbhead : (calWB emptySampleSolver.camera
      (generate_illuminant bbZero 4000 ("d" ++ toString ((4000 : ℤ) / 100)) true)).map
        Prod.snd = some [0, 1, 0] := by
    simp [calWB, scaleLSC, generate_illuminant, emptySampleSolver,
      cameraRGBEmptySamples, noSamples, SpectralData.channel, SpectralData.set,
      SpectralData.scalePower, Spectrum.mul, Spectrum.integrate,
      Spectrum.maxValue, List.lookup]
  refine C3_find_illuminant_minimises_sse bbZero [] emptySampleSolver [1, 1, 1]
    rfl rfl (by decide) ?_
  obtain ⟨pr0, hpr0⟩ : ∃ pr, calWB emptySampleSolver.camera
      (generate_illuminant bbZero 4000 ("d" ++ toString ((4000 : ℤ) / 100)) true)
        = some pr := by
    rw [Option.map_eq_some'] at hwbhead
    obtain ⟨pr, hpr, _⟩ := hwbhead
    exact ⟨pr, hpr⟩
  refine ⟨generate_illuminant bbZero 4000 ("d" ++ toString ((4000 : ℤ) / 100)) true,
    ?_, pr0, hpr0, ?_⟩
  · simp only [allIlluminantsInit, List.append_assoc, List.mem_append]
    exact Or.inl (List.mem_map.mpr ⟨4000, by decide, rfl⟩)
  · have hsnd : pr0.2 = [0, 1, 0] := by
      rw [hpr0] at hwbhead
      simpa using hwbhead
    rw [hsnd]
    norm_num [calculate_SSE, dmax]

/-- C10 witness: a failed search over one non-matching camera file. -/
theorem C10_find_camera_not_atomic_witness :
    (SpectralSolver.find_camera [cameraRGB] "Nikon" "D200"
        SpectralSolver.init).2.camera
      = [cameraRGB].getLast (by simp) :=
  C10_find_camera_not_atomic [cameraRGB] "Nikon" "D200" SpectralSolver.init
    (by simp) (by decide)

/-!  Robertson round-trip (C7): table facts. -/

/-- Every later Robertson point lies strictly above every earlier isotherm
(in the scaled integer arithmetic). -/
theorem EIntRob_pos : ∀ k, k < 31 → ∀ j, j < k → 0 < EIntRob k j := by decide

/-- Every Robertson point lies strictly below the next isotherm. -/
theorem EIntRob_next_neg : ∀ k, k < 30 → EIntRob k (k + 1) < 0 := by decide

/-- Every slope in the Robertson table is negative. -/
theorem rUVT_t_neg : ∀ i, i < 31 → (rUVT i).2.2 < 0 := by decide

/-- Coordinate bounds of the Robertson table (scaled): `u ≥ 0`, `v ≤ 0.37`. -/
theorem rUVT_uv_bounds : ∀ i, i < 31 → 0 ≤ (rUVT i).1 ∧ (rUVT i).2.1 ≤ 37000 := by
  decide

/-- The real distance numerator is the scaled integer one over 10¹⁰. -/
theorem realE_eq (k j : ℕ) :
    realE k j = (EIntRob k j : ℝ) / 10000000000 := by
  unfold realE EIntRob uR vR tR
  push_cast
  ring

/-- A point of the table is at distance zero from its own isotherm. -/
theorem realE_self (k : ℕ) : realE k k = 0 := by
  unfold realE
  ring

/-- Positivity transfer for `realE`. -/
theorem realE_pos (k j : ℕ) (hk : k < 31) (hjk : j < k) : 0 < realE k j := by
  rw [realE_eq]
  have h := EIntRob_pos k hk j hjk
  positivity

/-- Negativity transfer for `realE` at the next isotherm. -/
theorem realE_next_neg (k : ℕ) (hk : k < 30) : realE k (k + 1) < 0 := by
  rw [realE_eq]
  have h := EIntRob_next_neg k hk
  have h2 : (EIntRob k (k + 1) : ℝ) < 0 := by exact_mod_cast h
  linarith [h2]

/-- Slope negativity transfer. -/
theorem tR_neg (i : ℕ) (hi : i < 31) : tR i < 0 := by
  unfold tR
  have h := rUVT_t_neg i hi
  have h2 : ((rUVT i).2.2 : ℝ) < 0 := by exact_mod_cast h
  linarith

/-- `robertsonLength` against table row `j` is the distance numerator over
`√(1 + t²)`. -/
theorem robertsonLength_eq (j : ℕ) (hj : j < 31) (u v : ℝ) :
    robertsonLength [u, v] (robertsonRow j)
      = ((v - vR j) - tR j * (u - uR j)) / Real.sqrt (1 + tR j * tR j) := by
  have ht := tR_neg j hj
  have hs : (0 : ℝ) < Real.sqrt (1 + tR j * tR j) := by
    rw [Real.sqrt_pos]
    nlinarith
  unfold robertsonLength robertsonRow
  simp only [List.getD_cons_succ, List.getD_cons_zero, if_pos ht]
  field_simp

/-- The walk stops at the first row with non-positive length. -/
theorem robertsonWalk_eq (uv : List ℝ) (i : ℕ) (hi : i < 31)
    (hneg : robertsonLength uv (robertsonRow i) ≤ 0)
    (hpos : ∀ j, j < i → 0 < robertsonLength uv (robertsonRow j)) :
    ∀ d k (prev : ℝ), k < i → i - k = d + 1 →
      robertsonWalk uv k prev
        = (i, robertsonLength uv (robertsonRow (i - 1)),
            robertsonLength uv (robertsonRow i)) := by
  intro d
  induction d with
  | zero =>
    intro k prev hk hd
    have hki : k = i - 1 := by omega
    rw [robertsonWalk]
    rw [dif_pos (by omega : k < 31)]
    have hklt : 0 < robertsonLength uv (robertsonRow k) := hpos k hk
    rw [if_neg (by linarith)]
    have hk1 : k + 1 = i := by omega
    rw [hk1, robertsonWalk, dif_pos hi, if_pos hneg, hki]
  | succ n ih =>
    intro k prev hk hd
    rw [robertsonWalk]
    rw [dif_pos (by omega : k < 31)]
    have hklt : 0 < robertsonLength uv (robertsonRow k) := hpos k hk
    rw [if_neg (by linarith)]
    exact ih (k + 1) _ (by omega) (by omega)

/-- The index loop returns the first row at or above the requested mired. -/
theorem miredIndex_eq (m : ℝ) (i : ℕ) (hi : i < 31)
    (hge : m ≤ rmiredR i) (hlt : ∀ j, j < i → rmiredR j < m) :
    ∀ d k, k ≤ i → i - k = d → miredIndex m k = i := by
  intro d
  induction d with
  | zero =>
    intro k hk hd
    have hki : k = i := by omega
    subst hki
    rw [miredIndex, dif_pos (by omega : k < 31), if_pos (by linarith : rmiredR k ≥ m)]
  | succ n ih =>
    intro k hk hd
    have hklt : k < i := by omega
    rw [miredIndex, dif_pos (by omega : k < 31),
      if_neg (by have := hlt k hklt; simp only [ge_iff_le, not_le]; linarith)]
    exact ih (k + 1) (by omega) (by omega)

/-- The `uv → XYZ → uv` round trip is the identity away from the singular
line of the `uv` chart. -/
theorem XYZ_to_uv_uv_to_XYZ (u v : ℝ) (h : 2 * u - 8 * v + 4 ≠ 0) :
    XYZ_to_uv (uv_to_XYZ [u, v]) = [u, v] := by
  unfold XYZ_to_uv uv_to_XYZ uv_to_xy xy_to_XYZ
  simp only [List.getD_cons_succ, List.getD_cons_zero, List.cons.injEq, and_true]
  constructor
  · field_simp
    ring
  · field_simp
    ring

/-- The inverse-interpolation error bound on one Robertson segment: if the
perpendicular gauges `b` and `c` of the two bracketing isotherms are close
enough relative to the segment's mired width and position, the reverse
lookup perturbs the temperature by at most 1 K. -/
theorem segment_error_bound (m₀ dm b c s : ℝ)
    (hm₀ : 0 < m₀) (hdm : 0 < dm) (hb : 0 < b) (hc : 0 < c)
    (hs0 : 0 < s) (hs1 : s ≤ 1)
    (hU : 1000000 * dm * (b - c) ≤ 4 * m₀ ^ 2 * c)
    (hV : 1000000 * dm * (c - b) ≤ 4 * m₀ ^ 2 * b) :
    |1000000 / (m₀ + s * b * dm / (s * b + (1 - s) * c))
      - 1000000 / (m₀ + s * dm)| ≤ 1 := by
  have hs1' : (0 : ℝ) ≤ 1 - s := by linarith
  obtain ⟨D, hDdef, hD⟩ : ∃ D, s * b + (1 - s) * c = D ∧ 0 < D :=
    ⟨_, rfl, by nlinarith⟩
  obtain ⟨mr, hmrdef⟩ : ∃ mr, m₀ + s * b * dm / D = mr := ⟨_, rfl⟩
  obtain ⟨m, hmdef⟩ : ∃ m, m₀ + s * dm = m := ⟨_, rfl⟩
  rw [hDdef, hmrdef, hmdef]
  have hmrge : m₀ ≤ mr := by
    rw [← hmrdef]
    have h0 : 0 ≤ s * b * dm / D := by positivity
    linarith
  have hmge : m₀ < m := by
    rw [← hmdef]
    nlinarith
  have hmrpos : 0 < mr := lt_of_lt_of_le hm₀ hmrge
  have hmpos : 0 < m := lt_trans hm₀ hmge
  have hdiff : m - mr = s * (1 - s) * (c - b) * dm / D := by
    rw [← hmdef, ← hmrdef, ← hDdef]
    field_simp
    ring
  have hss : s * (1 - s) ≤ 1 / 4 := by nlinarith [sq_nonneg (2 * s - 1)]
  have hssn : 0 ≤ s * (1 - s) := mul_nonneg (le_of_lt hs0) hs1'
  have hmm : m₀ * m₀ ≤ mr * m :=
    mul_le_mul hmrge (le_of_lt hmge) (le_of_lt hm₀) (le_of_lt hmrpos)
  have key : 1000000 * |m - mr| ≤ mr * m := by
    rw [hdiff, abs_div, abs_of_pos hD, ← mul_div_assoc, div_le_iff hD]
    rcases le_total b c with hbc | hbc
    · have hDb : b ≤ D := by rw [← hDdef]; nlinarith
      have habs : |s * (1 - s) * (c - b) * dm| = s * (1 - s) * ((c - b) * dm) := by
        rw [abs_of_nonneg]
        · ring
        · have : 0 ≤ c - b := by linarith
          positivity
      rw [habs]
      have hX : 0 ≤ 1000000 * dm * (c - b) := by nlinarith
      have h1 : 1000000 * (s * (1 - s) * ((c - b) * dm))
          = s * (1 - s) * (1000000 * dm * (c - b)) := by ring
      have h2 : s * (1 - s) * (1000000 * dm * (c - b))
          ≤ (1 / 4) * (1000000 * dm * (c - b)) :=
        mul_le_mul_of_nonneg_right hss hX
      have h3 : (1 / 4) * (1000000 * dm * (c - b)) ≤ (1 / 4) * (4 * m₀ ^ 2 * b) :=
        mul_le_mul_of_nonneg_left hV (by norm_num)
      have h4 : (1 / 4) * (4 * m₀ ^ 2 * b) = m₀ * m₀ * b := by ring
      have h5 : m₀ * m₀ * b ≤ m₀ * m₀ * D :=
        mul_le_mul_of_nonneg_left hDb (by positivity)
      have h6 : m₀ * m₀ * D ≤ mr * m * D :=
        mul_le_mul_of_nonneg_right hmm (le_of_lt hD)
      linarith
    · have hDc : c ≤ D := by rw [← hDdef]; nlinarith
      have habs : |s * (1 - s) * (c - b) * dm| = s * (1 - s) * ((b - c) * dm) := by
        have hbc' : (0 : ℝ) ≤ b - c := by linarith
        have h8 : 0 ≤ s * (1 - s) * (b - c) * dm :=
          mul_nonneg (mul_nonneg hssn hbc') (le_of_lt hdm)
        rw [abs_of_nonpos (by linarith [h8, (by ring :
          s * (1 - s) * (c - b) * dm = -(s * (1 - s) * (b - c) * dm))])]
        ring
      rw [habs]
      have hX : 0 ≤ 1000000 * dm * (b - c) := by nlinarith
      have h1 : 1000000 * (s * (1 - s) * ((b - c) * dm))
          = s * (1 - s) * (1000000 * dm * (b - c)) := by ring
      have h2 : s * (1 - s) * (1000000 * dm * (b - c))
          ≤ (1 / 4) * (1000000 * dm * (b - c)) :=
        mul_le_mul_of_nonneg_right hss hX
      have h3 : (1 / 4) * (1000000 * dm * (b - c)) ≤ (1 / 4) * (4 * m₀ ^ 2 * c) :=
        mul_le_mul_of_nonneg_left hU (by norm_num)
      have h4 : (1 / 4) * (4 * m₀ ^ 2 * c) = m₀ * m₀ * c := by ring
      have h5 : m₀ * m₀ * c ≤ m₀ * m₀ * D :=
        mul_le_mul_of_nonneg_left hDc (by positivity)
      have h6 : m₀ * m₀ * D ≤ mr * m * D :=
        mul_le_mul_of_nonneg_right hmm (le_of_lt hD)
      linarith
  have hfinal : |1000000 / mr - 1000000 / m| = 1000000 * |m - mr| / (mr * m) := by
    rw [div_sub_div _ _ (ne_of_gt hmrpos) (ne_of_gt hmpos)]
    rw [abs_div, abs_of_pos (mul_pos hmrpos hmpos)]
    congr 1
    rw [show (1000000 : ℝ) * m - mr * 1000000 = 1000000 * (m - mr) from by ring,
      abs_mul]
    norm_num
  rw [hfinal, div_le_one (mul_pos hmrpos hmpos)]
  exact key

/-- Adjacent Robertson mired values are increasing. -/
theorem rmiredR_adj : ∀ k, k < 30 → rmiredR k ≤ rmiredR (k + 1) := by
  intro k hk
  have h : (RobertsonMired.getD k 0 : ℚ) ≤ RobertsonMired.getD (k + 1) 0 := by
    interval_cases k <;> norm_num [RobertsonMired]
  unfold rmiredR
  exact_mod_cast h

/-- The Robertson mired values are monotone. -/
theorem rmiredR_mono (j k : ℕ) (hjk : j ≤ k) (hk : k ≤ 30) :
    rmiredR j ≤ rmiredR k := by
  induction k with
  | zero =>
    have : j = 0 := by omega
    simp [this]
  | succ n ih =>
    rcases Nat.lt_or_ge j (n + 1) with h | h
    · exact le_trans (ih (by omega) (by omega)) (rmiredR_adj n (by omega))
    · have : j = n + 1 := by omega
      simp [this]

/-- The `u` coordinates of the Robertson table are non-negative. -/
theorem uR_nonneg (k : ℕ) (hk : k < 31) : 0 ≤ uR k := by
  unfold uR
  have h := (rUVT_uv_bounds k hk).1
  have h2 : (0 : ℝ) ≤ ((rUVT k).1 : ℝ) := by exact_mod_cast h
  positivity

/-- The `v` coordinates of the Robertson table are at most 0.37. -/
theorem vR_le (k : ℕ) (hk : k < 31) : vR k ≤ 37 / 100 := by
  unfold vR
  have h := (rUVT_uv_bounds k hk).2
  have h2 : ((rUVT k).2.1 : ℝ) ≤ 37000 := by exact_mod_cast h
  linarith

/-- Clamping to [2000, 50000] cannot move a value further from a target
already inside the band. -/
theorem clamp_abs_le (x T : ℝ) (h1 : 2000 ≤ T) (h2 : T ≤ 50000) :
    |max 2000 (min 50000 x) - T| ≤ |x - T| := by
  rcases le_total x 2000 with hx | hx
  · have hmin : min 50000 x = x := min_eq_right (by linarith)
    have hmax : max 2000 x = 2000 := max_eq_left (by linarith)
    rw [hmin, hmax, abs_of_nonpos (by linarith), abs_of_nonpos (by linarith)]
    linarith
  · rcases le_total x 50000 with hx2 | hx2
    · rw [min_eq_right hx2, max_eq_right hx]
    · rw [min_eq_left hx2, max_eq_right (by norm_num)]
      rw [abs_of_nonneg (by linarith), abs_of_nonneg (by linarith)]
      linarith

set_option maxHeartbeats 2000000 in
/-- Round-trip accuracy on one Robertson segment: if `1e6/T` lies in the
half-open mired segment `(rmiredR (i−1), rmiredR i]` and the isotherm gauges
of the segment satisfy the bracketed closeness conditions, then the CCT
round trip through `colorTemperatureToXYZ` and `XYZToColorTemperature`
returns `T` to within 1 K. -/
theorem segment_roundtrip (i : ℕ) (hi1 : 1 ≤ i) (hi30 : i ≤ 30)
    (B C : ℝ) (hBeq : realE i (i - 1) = B) (hCeq : realE (i - 1) i = -C)
    (T : ℝ) (hT1 : 2000 ≤ T) (hT2 : T ≤ 50000)
    (hm₀pos : 0 < rmiredR (i - 1))
    (hmlo : rmiredR (i - 1) < 1000000 / T) (hmhi : 1000000 / T ≤ rmiredR i)
    (p₁ p₂ q₁ q₂ : ℝ) (hp₁ : 0 < p₁) (hp₂ : 0 < p₂) (hq₁ : 0 < q₁) (hq₂ : 0 < q₂)
    (hpl : p₁ ^ 2 ≤ 1 + tR (i - 1) * tR (i - 1))
    (hpu : 1 + tR (i - 1) * tR (i - 1) ≤ p₂ ^ 2)
    (hql : q₁ ^ 2 ≤ 1 + tR i * tR i)
    (hqu : 1 + tR i * tR i ≤ q₂ ^ 2)
    (hK2 : 1000000 * (rmiredR i - rmiredR (i - 1)) * (B / p₁ - C / q₂)
      ≤ 4 * rmiredR (i - 1) ^ 2 * (C / q₂))
    (hK3 : 1000000 * (rmiredR i - rmiredR (i - 1)) * (C / q₁ - B / p₂)
      ≤ 4 * rmiredR (i - 1) ^ 2 * (B / p₂)) :
    |XYZToColorTemperature (colorTemperatureToXYZ T) - T| ≤ 1 := by
  have hi31 : i < 31 := by omega
  have hi131 : i - 1 < 31 := by omega
  have hTpos : (0 : ℝ) < T := by linarith
  have hdm : 0 < rmiredR i - rmiredR (i - 1) := by linarith
  have hB : 0 < B := hBeq ▸ realE_pos i (i - 1) hi31 (by omega)
  have hC : 0 < C := by
    have h := realE_next_neg (i - 1) (by omega)
    rw [show i - 1 + 1 = i from by omega, hCeq] at h
    linarith
  -- the interpolation parameter
  obtain ⟨s, hsdef⟩ : ∃ s, (1000000 / T - rmiredR (i - 1)) /
      (rmiredR i - rmiredR (i - 1)) = s := ⟨_, rfl⟩
  have hs0 : 0 < s := by
    rw [← hsdef]
    exact div_pos (by linarith) hdm
  have hs1 : s ≤ 1 := by
    rw [← hsdef]
    rw [div_le_one hdm]
    linarith
  have hms : rmiredR (i - 1) + s * (rmiredR i - rmiredR (i - 1)) = 1000000 / T := by
    rw [← hsdef]
    field_simp
    ring
  -- the forward lookup lands on segment i
  have hidx : miredIndex (1000000 / T) 0 = i := by
    refine miredIndex_eq (1000000 / T) i hi31 hmhi ?_ i 0 (by omega) (by omega)
    intro j hj
    calc rmiredR j ≤ rmiredR (i - 1) := rmiredR_mono j (i - 1) (by omega) (by omega)
    _ < 1000000 / T := hmlo
  obtain ⟨u, hudef⟩ : ∃ u, (1000000 / T - rmiredR (i - 1)) /
      (rmiredR i - rmiredR (i - 1)) * uR i +
      (1 - (1000000 / T - rmiredR (i - 1)) / (rmiredR i - rmiredR (i - 1))) *
        uR (i - 1) = u := ⟨_, rfl⟩
  obtain ⟨v, hvdef⟩ : ∃ v, (1000000 / T - rmiredR (i - 1)) /
      (rmiredR i - rmiredR (i - 1)) * vR i +
      (1 - (1000000 / T - rmiredR (i - 1)) / (rmiredR i - rmiredR (i - 1))) *
        vR (i - 1) = v := ⟨_, rfl⟩
  have hu : s * uR i + (1 - s) * uR (i - 1) = u := by rw [← hsdef]; exact hudef
  have hv : s * vR i + (1 - s) * vR (i - 1) = v := by rw [← hsdef]; exact hvdef
  have hforward : colorTemperatureToXYZ T = uv_to_XYZ [u, v] := by
    simp only [colorTemperatureToXYZ]
    rw [hidx, if_neg (by omega : ¬ i ≤ 0), if_neg (by omega : ¬ 31 ≤ i),
      hudef, hvdef]
  -- coordinate bounds give the non-singularity of the uv chart
  have hu0 : 0 ≤ u := by
    rw [← hu]
    have h1 := uR_nonneg i hi31
    have h2 := uR_nonneg (i - 1) hi131
    have h3 := mul_nonneg (le_of_lt hs0) h1
    have h4 := mul_nonneg (by linarith : (0 : ℝ) ≤ 1 - s) h2
    linarith
  have hv37 : v ≤ 37 / 100 := by
    rw [← hv]
    have h1 := vR_le i hi31
    have h2 := vR_le (i - 1) hi131
    have h3 := mul_le_mul_of_nonneg_left h1 (le_of_lt hs0)
    have h4 := mul_le_mul_of_nonneg_left h2 (by linarith : (0 : ℝ) ≤ 1 - s)
    linarith
  have hscalepos : 0 < 2 * u - 8 * v + 4 := by linarith
  have hscale : 2 * u - 8 * v + 4 ≠ 0 := ne_of_gt hscalepos
  have hroundtrip : XYZ_to_uv (uv_to_XYZ [u, v]) = [u, v] :=
    XYZ_to_uv_uv_to_XYZ u v hscale
  -- the numerators of the lengths along the segment
  have hnum : ∀ j, (v - vR j) - tR j * (u - uR j)
      = (1 - s) * realE (i - 1) j + s * realE i j := by
    intro j
    rw [← hu, ← hv]
    unfold realE
    ring
  have hpos : ∀ j, j < i → 0 < robertsonLength [u, v] (robertsonRow j) := by
    intro j hj
    rw [robertsonLength_eq j (by omega)]
    have hsq : 0 < Real.sqrt (1 + tR j * tR j) := by
      rw [Real.sqrt_pos]
      linarith [mul_self_nonneg (tR j)]
    refine div_pos ?_ hsq
    rw [hnum j]
    have hEi : 0 < realE i j := realE_pos i j hi31 hj
    have h4 : 0 < s * realE i j := mul_pos hs0 hEi
    rcases Nat.lt_or_ge j (i - 1) with hj2 | hj2
    · have hE1 : 0 < realE (i - 1) j := realE_pos (i - 1) j (by omega) hj2
      have h3 : 0 ≤ (1 - s) * realE (i - 1) j :=
        mul_nonneg (by linarith) (le_of_lt hE1)
      linarith
    · have hj3 : j = i - 1 := by omega
      rw [hj3] at h4 ⊢
      rw [realE_self]
      linarith
  have hneg : robertsonLength [u, v] (robertsonRow i) ≤ 0 := by
    rw [robertsonLength_eq i hi31]
    have hsq : 0 ≤ Real.sqrt (1 + tR i * tR i) := Real.sqrt_nonneg _
    refine div_nonpos_of_nonpos_of_nonneg ?_ hsq
    rw [hnum i, realE_self, hCeq]
    have h3 : 0 ≤ (1 - s) * C := mul_nonneg (by linarith) (le_of_lt hC)
    have h5 : (1 - s) * -C + s * 0 = -((1 - s) * C) := by ring
    rw [h5]
    exact neg_nonpos.mpr h3
  have hwalk : robertsonWalk [u, v] 0 0
      = (i, robertsonLength [u, v] (robertsonRow (i - 1)),
          robertsonLength [u, v] (robertsonRow i)) :=
    robertsonWalk_eq [u, v] i hi31 hneg hpos (i - 1) 0 0 (by omega) (by omega)
  -- identify the two lengths
  have hP1 : (0:ℝ) < 1 + tR (i - 1) * tR (i - 1) := by
    linarith [mul_self_nonneg (tR (i - 1))]
  have hQ1 : (0:ℝ) < 1 + tR i * tR i := by
    linarith [mul_self_nonneg (tR i)]
  have hsP : 0 < Real.sqrt (1 + tR (i - 1) * tR (i - 1)) := Real.sqrt_pos.mpr hP1
  have hsQ : 0 < Real.sqrt (1 + tR i * tR i) := Real.sqrt_pos.mpr hQ1
  have hRDprev : robertsonLength [u, v] (robertsonRow (i - 1))
      = s * B / Real.sqrt (1 + tR (i - 1) * tR (i - 1)) := by
    rw [robertsonLength_eq (i - 1) hi131, hnum (i - 1), realE_self, hBeq]
    ring
  have hRDthis : robertsonLength [u, v] (robertsonRow i)
      = -((1 - s) * C) / Real.sqrt (1 + tR i * tR i) := by
    rw [robertsonLength_eq i hi31, hnum i, realE_self, hCeq]
    ring
  -- the inverse lookup formula on this segment
  have hinverse : XYZToColorTemperature (colorTemperatureToXYZ T)
      = max 2000 (min 50000 (1000000 /
          (rmiredR (i - 1) +
            s * (B / Real.sqrt (1 + tR (i - 1) * tR (i - 1))) *
              (rmiredR i - rmiredR (i - 1)) /
            (s * (B / Real.sqrt (1 + tR (i - 1) * tR (i - 1))) +
              (1 - s) * (C / Real.sqrt (1 + tR i * tR i)))))) := by
    rw [hforward]
    simp only [XYZToColorTemperature]
    rw [hroundtrip, hwalk]
    simp only [if_neg (by omega : ¬ i ≤ 0), if_neg (by omega : ¬ 31 ≤ i)]
    rw [hRDprev, hRDthis]
    have hd1 : s * B / Real.sqrt (1 + tR (i - 1) * tR (i - 1)) -
        -((1 - s) * C) / Real.sqrt (1 + tR i * tR i)
        = s * (B / Real.sqrt (1 + tR (i - 1) * tR (i - 1))) +
          (1 - s) * (C / Real.sqrt (1 + tR i * tR i)) := by
      field_simp
      ring
    rw [hd1]
    have hd2 : s * B / Real.sqrt (1 + tR (i - 1) * tR (i - 1))
        = s * (B / Real.sqrt (1 + tR (i - 1) * tR (i - 1))) := by
      field_simp
    rw [hd2]
  -- gauge brackets
  have hpl' : p₁ ≤ Real.sqrt (1 + tR (i - 1) * tR (i - 1)) :=
    (Real.le_sqrt' hp₁).mpr hpl
  have hpu' : Real.sqrt (1 + tR (i - 1) * tR (i - 1)) ≤ p₂ := by
    calc Real.sqrt (1 + tR (i - 1) * tR (i - 1)) ≤ Real.sqrt (p₂ ^ 2) :=
      Real.sqrt_le_sqrt hpu
    _ = p₂ := Real.sqrt_sq (le_of_lt hp₂)
  have hql' : q₁ ≤ Real.sqrt (1 + tR i * tR i) := (Real.le_sqrt' hq₁).mpr hql
  have hqu' : Real.sqrt (1 + tR i * tR i) ≤ q₂ := by
    calc Real.sqrt (1 + tR i * tR i) ≤ Real.sqrt (q₂ ^ 2) := Real.sqrt_le_sqrt hqu
    _ = q₂ := Real.sqrt_sq (le_of_lt hq₂)
  have hb_ub : B / Real.sqrt (1 + tR (i - 1) * tR (i - 1)) ≤ B / p₁ := by
    gcongr
  have hb_lb : B / p₂ ≤ B / Real.sqrt (1 + tR (i - 1) * tR (i - 1)) := by
    gcongr
  have hc_ub : C / Real.sqrt (1 + tR i * tR i) ≤ C / q₁ := by
    gcongr
  have hc_lb : C / q₂ ≤ C / Real.sqrt (1 + tR i * tR i) := by
    gcongr
  have hbpos : 0 < B / Real.sqrt (1 + tR (i - 1) * tR (i - 1)) := div_pos hB hsP
  have hcpos : 0 < C / Real.sqrt (1 + tR i * tR i) := div_pos hC hsQ
  -- closeness conditions transported to the true gauges
  have hU : 1000000 * (rmiredR i - rmiredR (i - 1)) *
      (B / Real.sqrt (1 + tR (i - 1) * tR (i - 1)) -
        C / Real.sqrt (1 + tR i * tR i))
      ≤ 4 * rmiredR (i - 1) ^ 2 * (C / Real.sqrt (1 + tR i * tR i)) := by
    have h1 : B / Real.sqrt (1 + tR (i - 1) * tR (i - 1)) -
        C / Real.sqrt (1 + tR i * tR i) ≤ B / p₁ - C / q₂ := by linarith
    have hdm6 : (0 : ℝ) ≤ 1000000 * (rmiredR i - rmiredR (i - 1)) := by linarith
    have h2 := mul_le_mul_of_nonneg_left h1 hdm6
    have h3 := mul_le_mul_of_nonneg_left hc_lb
      (by positivity : (0 : ℝ) ≤ 4 * rmiredR (i - 1) ^ 2)
    linarith
  have hV : 1000000 * (rmiredR i - rmiredR (i - 1)) *
      (C / Real.sqrt (1 + tR i * tR i) -
        B / Real.sqrt (1 + tR (i - 1) * tR (i - 1)))
      ≤ 4 * rmiredR (i - 1) ^ 2 *
          (B / Real.sqrt (1 + tR (i - 1) * tR (i - 1))) := by
    have h1 : C / Real.sqrt (1 + tR i * tR i) -
        B / Real.sqrt (1 + tR (i - 1) * tR (i - 1)) ≤ C / q₁ - B / p₂ := by
      linarith
    have hdm6 : (0 : ℝ) ≤ 1000000 * (rmiredR i - rmiredR (i - 1)) := by linarith
    have h2 := mul_le_mul_of_nonneg_left h1 hdm6
    have h3 := mul_le_mul_of_nonneg_left hb_lb
      (by positivity : (0 : ℝ) ≤ 4 * rmiredR (i - 1) ^ 2)
    linarith
  -- assemble
  have hbound := segment_error_bound (rmiredR (i - 1)) (rmiredR i - rmiredR (i - 1))
    (B / Real.sqrt (1 + tR (i - 1) * tR (i - 1)))
    (C / Real.sqrt (1 + tR i * tR i)) s
    hm₀pos hdm hbpos hcpos hs0 hs1
    (by linarith [hU] :
      1000000 * (rmiredR i - rmiredR (i - 1)) *
        (B / Real.sqrt (1 + tR (i - 1) * tR (i - 1)) -
          C / Real.sqrt (1 + tR i * tR i))
        ≤ 4 * rmiredR (i - 1) ^ 2 * (C / Real.sqrt (1 + tR i * tR i)))
    (by linarith [hV])
  have hT' : 1000000 / (rmiredR (i - 1) + s * (rmiredR i - rmiredR (i - 1))) = T := by
    rw [hms]
    field_simp
  rw [hinverse]
  calc |max 2000 (min 50000 (1000000 /
        (rmiredR (i - 1) +
          s * (B / Real.sqrt (1 + tR (i - 1) * tR (i - 1))) *
            (rmiredR i - rmiredR (i - 1)) /
          (s * (B / Real.sqrt (1 + tR (i - 1) * tR (i - 1))) +
            (1 - s) * (C / Real.sqrt (1 + tR i * tR i)))))) - T|
      ≤ |1000000 /
        (rmiredR (i - 1) +
          s * (B / Real.sqrt (1 + tR (i - 1) * tR (i - 1))) *
            (rmiredR i - rmiredR (i - 1)) /
          (s * (B / Real.sqrt (1 + tR (i - 1) * tR (i - 1))) +
            (1 - s) * (C / Real.sqrt (1 + tR i * tR i)))) - T| :=
      clamp_abs_le _ T hT1 hT2
    _ ≤ 1 := by
      rw [← hT']
      exact hbound

set_option maxHeartbeats 4000000 in
/-- C7: for every colour temperature T in [2000 K, 50000 K], converting to
XYZ via the inverse Robertson lookup and back returns T to within 1 K. -/
theorem C7_cct_round_trip (T : ℝ) (hT1 : 2000 ≤ T) (hT2 : T ≤ 50000) :
    |XYZToColorTemperature (colorTemperatureToXYZ T) - T| ≤ 1 := by
  have hTpos : (0 : ℝ) < T := by linarith
  have hm20 : (20 : ℝ) ≤ 1000000 / T := by
    rw [le_div_iff hTpos]
    nlinarith
  have hm500 : 1000000 / T ≤ 500 := by
    rw [div_le_iff hTpos]
    nlinarith
  by_cases hc2 : 1000000 / T ≤ 20
  · exact segment_roundtrip 2 (by norm_num) (by norm_num)
      ((27407093 : ℝ) / 10000000000) ((6875173 : ℝ) / 2500000000)
      (by rw [realE_eq, show EIntRob 2 1 = 27407093 from by decide]; norm_num)
      (by rw [realE_eq, show EIntRob 1 2 = -27500692 from by decide]; norm_num)
      T hT1 hT2
      (by norm_num [rmiredR, RobertsonMired])
      (by have h : rmiredR (2 - 1) = 10 := by norm_num [rmiredR, RobertsonMired]
          rw [h]; linarith)
      (by have h : rmiredR 2 = 20 := by norm_num [rmiredR, RobertsonMired]
          rw [h]; linarith)
      ((10319486150482493 : ℝ) / 10000000000000000) ((5159743075241247 : ℝ) / 5000000000000000) ((40448684727583 : ℝ) / 39062500000000) ((10354863290261249 : ℝ) / 10000000000000000)
      (by norm_num) (by norm_num) (by norm_num) (by norm_num)
      (by norm_num [tR, rUVT, RobertsonUVT])
      (by norm_num [tR, rUVT, RobertsonUVT])
      (by norm_num [tR, rUVT, RobertsonUVT])
      (by norm_num [tR, rUVT, RobertsonUVT])
      (by norm_num [rmiredR, RobertsonMired])
      (by norm_num [rmiredR, RobertsonMired])
  by_cases hc3 : 1000000 / T ≤ 30
  · exact segment_roundtrip 3 (by norm_num) (by norm_num)
      ((293157 : ℝ) / 100000000) ((1177617 : ℝ) / 400000000)
      (by rw [realE_eq, show EIntRob 3 2 = 29315700 from by decide]; norm_num)
      (by rw [realE_eq, show EIntRob 2 3 = -29440425 from by decide]; norm_num)
      T hT1 hT2
      (by norm_num [rmiredR, RobertsonMired])
      (by have h : rmiredR (3 - 1) = 20 := by norm_num [rmiredR, RobertsonMired]
          rw [h]; have h2 := not_le.mp hc2; linarith)
      (by have h : rmiredR 3 = 30 := by norm_num [rmiredR, RobertsonMired]
          rw [h]; linarith)
      ((40448684727583 : ℝ) / 39062500000000) ((10354863290261249 : ℝ) / 10000000000000000) ((324977080336661 : ℝ) / 312500000000000) ((10399266570773153 : ℝ) / 10000000000000000)
      (by norm_num) (by norm_num) (by norm_num) (by norm_num)
      (by norm_num [tR, rUVT, RobertsonUVT])
      (by norm_num [tR, rUVT, RobertsonUVT])
      (by norm_num [tR, rUVT, RobertsonUVT])
      (by norm_num [tR, rUVT, RobertsonUVT])
      (by norm_num [rmiredR, RobertsonMired])
      (by norm_num [rmiredR, RobertsonMired])
  by_cases hc4 : 1000000 / T ≤ 40
  · exact segment_roundtrip 4 (by norm_num) (by norm_num)
      ((6245163 : ℝ) / 2000000000) ((627799 : ℝ) / 200000000)
      (by rw [realE_eq, show EIntRob 4 3 = 31225815 from by decide]; norm_num)
      (by rw [realE_eq, show EIntRob 3 4 = -31389950 from by decide]; norm_num)
      T hT1 hT2
      (by norm_num [rmiredR, RobertsonMired])
      (by have h : rmiredR (4 - 1) = 30 := by norm_num [rmiredR, RobertsonMired]
          rw [h]; have h2 := not_le.mp hc3; linarith)
      (by have h : rmiredR 4 = 40 := by norm_num [rmiredR, RobertsonMired]
          rw [h]; linarith)
      ((324977080336661 : ℝ) / 312500000000000) ((10399266570773153 : ℝ) / 10000000000000000) ((10453908790495543 : ℝ) / 10000000000000000) ((1306738598811943 : ℝ) / 1250000000000000)
      (by norm_num) (by norm_num) (by norm_num) (by norm_num)
      (by norm_num [tR, rUVT, RobertsonUVT])
      (by norm_num [tR, rUVT, RobertsonUVT])
      (by norm_num [tR, rUVT, RobertsonUVT])
      (by norm_num [tR, rUVT, RobertsonUVT])
      (by norm_num [rmiredR, RobertsonMired])
      (by norm_num [rmiredR, RobertsonMired])
  by_cases hc5 : 1000000 / T ≤ 50
  · exact segment_roundtrip 5 (by norm_num) (by norm_num)
      ((661893 : ℝ) / 200000000) ((266433 : ℝ) / 80000000)
      (by rw [realE_eq, show EIntRob 5 4 = 33094650 from by decide]; norm_num)
      (by rw [realE_eq, show EIntRob 4 5 = -33304125 from by decide]; norm_num)
      T hT1 hT2
      (by norm_num [rmiredR, RobertsonMired])
      (by have h : rmiredR (5 - 1) = 40 := by norm_num [rmiredR, RobertsonMired]
          rw [h]; have h2 := not_le.mp hc4; linarith)
      (by have h : rmiredR 5 = 50 := by norm_num [rmiredR, RobertsonMired]
          rw [h]; linarith)
      ((10453908790495543 : ℝ) / 10000000000000000) ((1306738598811943 : ℝ) / 1250000000000000) ((5260146296682251 : ℝ) / 5000000000000000) ((10520292593364503 : ℝ) / 10000000000000000)
      (by norm_num) (by norm_num) (by norm_num) (by norm_num)
      (by norm_num [tR, rUVT, RobertsonUVT])
      (by norm_num [tR, rUVT, RobertsonUVT])
      (by norm_num [tR, rUVT, RobertsonUVT])
      (by norm_num [tR, rUVT, RobertsonUVT])
      (by norm_num [rmiredR, RobertsonMired])
      (by norm_num [rmiredR, RobertsonMired])
  by_cases hc6 : 1000000 / T ≤ 60
  · exact segment_roundtrip 6 (by norm_num) (by norm_num)
      ((693271 : ℝ) / 200000000) ((4365817 : ℝ) / 1250000000)
      (by rw [realE_eq, show EIntRob 6 5 = 34663550 from by decide]; norm_num)
      (by rw [realE_eq, show EIntRob 5 6 = -34926536 from by decide]; norm_num)
      T hT1 hT2
      (by norm_num [rmiredR, RobertsonMired])
      (by have h : rmiredR (6 - 1) = 50 := by norm_num [rmiredR, RobertsonMired]
          rw [h]; have h2 := not_le.mp hc5; linarith)
      (by have h : rmiredR 6 = 60 := by norm_num [rmiredR, RobertsonMired]
          rw [h]; linarith)
      ((5260146296682251 : ℝ) / 5000000000000000) ((10520292593364503 : ℝ) / 10000000000000000) ((10599973743363707 : ℝ) / 10000000000000000) ((2649993435840927 : ℝ) / 2500000000000000)
      (by norm_num) (by norm_num) (by norm_num) (by norm_num)
      (by norm_num [tR, rUVT, RobertsonUVT])
      (by norm_num [tR, rUVT, RobertsonUVT])
      (by norm_num [tR, rUVT, RobertsonUVT])
      (by norm_num [tR, rUVT, RobertsonUVT])
      (by norm_num [rmiredR, RobertsonMired])
      (by norm_num [rmiredR, RobertsonMired])
  by_cases hc7 : 1000000 / T ≤ 70
  · exact segment_roundtrip 7 (by norm_num) (by norm_num)
      ((9053313 : ℝ) / 2500000000) ((7307211 : ℝ) / 2000000000)
      (by rw [realE_eq, show EIntRob 7 6 = 36213252 from by decide]; norm_num)
      (by rw [realE_eq, show EIntRob 6 7 = -36536055 from by decide]; norm_num)
      T hT1 hT2
      (by norm_num [rmiredR, RobertsonMired])
      (by have h : rmiredR (7 - 1) = 60 := by norm_num [rmiredR, RobertsonMired]
          rw [h]; have h2 := not_le.mp hc6; linarith)
      (by have h : rmiredR 7 = 70 := by norm_num [rmiredR, RobertsonMired]
          rw [h]; linarith)
      ((10599973743363707 : ℝ) / 10000000000000000) ((2649993435840927 : ℝ) / 2500000000000000) ((10694646896929323 : ℝ) / 10000000000000000) ((2673661724232331 : ℝ) / 2500000000000000)
      (by norm_num) (by norm_num) (by norm_num) (by norm_num)
      (by norm_num [tR, rUVT, RobertsonUVT])
      (by norm_num [tR, rUVT, RobertsonUVT])
      (by norm_num [tR, rUVT, RobertsonUVT])
      (by norm_num [tR, rUVT, RobertsonUVT])
      (by norm_num [rmiredR, RobertsonMired])
      (by norm_num [rmiredR, RobertsonMired])
  by_cases hc8 : 1000000 / T ≤ 80
  · exact segment_roundtrip 8 (by norm_num) (by norm_num)
      ((7498207 : ℝ) / 2000000000) ((7576639 : ℝ) / 2000000000)
      (by rw [realE_eq, show EIntRob 8 7 = 37491035 from by decide]; norm_num)
      (by rw [realE_eq, show EIntRob 7 8 = -37883195 from by decide]; norm_num)
      T hT1 hT2
      (by norm_num [rmiredR, RobertsonMired])
      (by have h : rmiredR (8 - 1) = 70 := by norm_num [rmiredR, RobertsonMired]
          rw [h]; have h2 := not_le.mp hc7; linarith)
      (by have h : rmiredR 8 = 80 := by norm_num [rmiredR, RobertsonMired]
          rw [h]; linarith)
      ((10694646896929323 : ℝ) / 10000000000000000) ((2673661724232331 : ℝ) / 2500000000000000) ((2701540304275507 : ℝ) / 2500000000000000) ((10806161217102029 : ℝ) / 10000000000000000)
      (by norm_num) (by norm_num) (by norm_num) (by norm_num)
      (by norm_num [tR, rUVT, RobertsonUVT])
      (by norm_num [tR, rUVT, RobertsonUVT])
      (by norm_num [tR, rUVT, RobertsonUVT])
      (by norm_num [tR, rUVT, RobertsonUVT])
      (by norm_num [rmiredR, RobertsonMired])
      (by norm_num [rmiredR, RobertsonMired])
  by_cases hc9 : 1000000 / T ≤ 90
  · exact segment_roundtrip 9 (by norm_num) (by norm_num)
      ((386337 : ℝ) / 100000000) ((977473 : ℝ) / 250000000)
      (by rw [realE_eq, show EIntRob 9 8 = 38633700 from by decide]; norm_num)
      (by rw [realE_eq, show EIntRob 8 9 = -39098920 from by decide]; norm_num)
      T hT1 hT2
      (by norm_num [rmiredR, RobertsonMired])
      (by have h : rmiredR (9 - 1) = 80 := by norm_num [rmiredR, RobertsonMired]
          rw [h]; have h2 := not_le.mp hc8; linarith)
      (by have h : rmiredR 9 = 90 := by norm_num [rmiredR, RobertsonMired]
          rw [h]; linarith)
      ((2701540304275507 : ℝ) / 2500000000000000) ((10806161217102029 : ℝ) / 10000000000000000) ((10936425962808873 : ℝ) / 10000000000000000) ((5468212981404437 : ℝ) / 5000000000000000)
      (by norm_num) (by norm_num) (by norm_num) (by norm_num)
      (by norm_num [tR, rUVT, RobertsonUVT])
      (by norm_num [tR, rUVT, RobertsonUVT])
      (by norm_num [tR, rUVT, RobertsonUVT])
      (by norm_num [tR, rUVT, RobertsonUVT])
      (by norm_num [rmiredR, RobertsonMired])
      (by norm_num [rmiredR, RobertsonMired])
  by_cases hc10 : 1000000 / T ≤ 100
  · exact segment_roundtrip 10 (by norm_num) (by norm_num)
      ((2476891 : ℝ) / 625000000) ((1255593 : ℝ) / 312500000)
      (by rw [realE_eq, show EIntRob 10 9 = 39630256 from by decide]; norm_num)
      (by rw [realE_eq, show EIntRob 9 10 = -40178976 from by decide]; norm_num)
      T hT1 hT2
      (by norm_num [rmiredR, RobertsonMired])
      (by have h : rmiredR (10 - 1) = 90 := by norm_num [rmiredR, RobertsonMired]
          rw [h]; have h2 := not_le.mp hc9; linarith)
      (by have h : rmiredR 10 = 100 := by norm_num [rmiredR, RobertsonMired]
          rw [h]; linarith)
      ((10936425962808873 : ℝ) / 10000000000000000) ((5468212981404437 : ℝ) / 5000000000000000) ((1108749770868071 : ℝ) / 1000000000000000) ((11087497708680711 : ℝ) / 10000000000000000)
      (by norm_num) (by norm_num) (by norm_num) (by norm_num)
      (by norm_num [tR, rUVT, RobertsonUVT])
      (by norm_num [tR, rUVT, RobertsonUVT])
      (by norm_num [tR, rUVT, RobertsonUVT])
      (by norm_num [tR, rUVT, RobertsonUVT])
      (by norm_num [rmiredR, RobertsonMired])
      (by norm_num [rmiredR, RobertsonMired])
  by_cases hc11 : 1000000 / T ≤ 125
  · exact segment_roundtrip 11 (by norm_num) (by norm_num)
      ((319037 : ℝ) / 31250000) ((2663193 : ℝ) / 250000000)
      (by rw [realE_eq, show EIntRob 11 10 = 102091840 from by decide]; norm_num)
      (by rw [realE_eq, show EIntRob 10 11 = -106527720 from by decide]; norm_num)
      T hT1 hT2
      (by norm_num [rmiredR, RobertsonMired])
      (by have h : rmiredR (11 - 1) = 100 := by norm_num [rmiredR, RobertsonMired]
          rw [h]; have h2 := not_le.mp hc10; linarith)
      (by have h : rmiredR 11 = 125 := by norm_num [rmiredR, RobertsonMired]
          rw [h]; linarith)
      ((1108749770868071 : ℝ) / 1000000000000000) ((11087497708680711 : ℝ) / 10000000000000000) ((2314105063820569 : ℝ) / 2000000000000000) ((5785262659551423 : ℝ) / 5000000000000000)
      (by norm_num) (by norm_num) (by norm_num) (by norm_num)
      (by norm_num [tR, rUVT, RobertsonUVT])
      (by norm_num [tR, rUVT, RobertsonUVT])
      (by norm_num [tR, rUVT, RobertsonUVT])
      (by norm_num [tR, rUVT, RobertsonUVT])
      (by norm_num [rmiredR, RobertsonMired])
      (by norm_num [rmiredR, RobertsonMired])
  by_cases hc12 : 1000000 / T ≤ 150
  · exact segment_roundtrip 12 (by norm_num) (by norm_num)
      ((53551 : ℝ) / 5000000) ((226471 : ℝ) / 20000000)
      (by rw [realE_eq, show EIntRob 12 11 = 107102000 from by decide]; norm_num)
      (by rw [realE_eq, show EIntRob 11 12 = -113235500 from by decide]; norm_num)
      T hT1 hT2
      (by norm_num [rmiredR, RobertsonMired])
      (by have h : rmiredR (12 - 1) = 125 := by norm_num [rmiredR, RobertsonMired]
          rw [h]; have h2 := not_le.mp hc11; linarith)
      (by have h : rmiredR 12 = 150 := by norm_num [rmiredR, RobertsonMired]
          rw [h]; linarith)
      ((2314105063820569 : ℝ) / 2000000000000000) ((5785262659551423 : ℝ) / 5000000000000000) ((12233626543670523 : ℝ) / 10000000000000000) ((3058406635917631 : ℝ) / 2500000000000000)
      (by norm_num) (by norm_num) (by norm_num) (by norm_num)
      (by norm_num [tR, rUVT, RobertsonUVT])
      (by norm_num [tR, rUVT, RobertsonUVT])
      (by norm_num [tR, rUVT, RobertsonUVT])
      (by norm_num [tR, rUVT, RobertsonUVT])
      (by norm_num [rmiredR, RobertsonMired])
      (by norm_num [rmiredR, RobertsonMired])
  by_cases hc13 : 1000000 / T ≤ 175
  · exact segment_roundtrip 13 (by norm_num) (by norm_num)
      ((112275173 : ℝ) / 10000000000) ((120399263 : ℝ) / 10000000000)
      (by rw [realE_eq, show EIntRob 13 12 = 112275173 from by decide]; norm_num)
      (by rw [realE_eq, show EIntRob 12 13 = -120399263 from by decide]; norm_num)
      T hT1 hT2
      (by norm_num [rmiredR, RobertsonMired])
      (by have h : rmiredR (13 - 1) = 150 := by norm_num [rmiredR, RobertsonMired]
          rw [h]; have h2 := not_le.mp hc12; linarith)
      (by have h : rmiredR 13 = 175 := by norm_num [rmiredR, RobertsonMired]
          rw [h]; linarith)
      ((12233626543670523 : ℝ) / 10000000000000000) ((3058406635917631 : ℝ) / 2500000000000000) ((1311799519781891 : ℝ) / 1000000000000000) ((13117995197818911 : ℝ) / 10000000000000000)
      (by norm_num) (by norm_num) (by norm_num) (by norm_num)
      (by norm_num [tR, rUVT, RobertsonUVT])
      (by norm_num [tR, rUVT, RobertsonUVT])
      (by norm_num [tR, rUVT, RobertsonUVT])
      (by norm_num [tR, rUVT, RobertsonUVT])
      (by norm_num [rmiredR, RobertsonMired])
      (by norm_num [rmiredR, RobertsonMired])
  by_cases hc14 : 1000000 / T ≤ 200
  · exact segment_roundtrip 14 (by norm_num) (by norm_num)
      ((118883917 : ℝ) / 10000000000) ((6466147 : ℝ) / 500000000)
      (by rw [realE_eq, show EIntRob 14 13 = 118883917 from by decide]; norm_num)
      (by rw [realE_eq, show EIntRob 13 14 = -129322940 from by decide]; norm_num)
      T hT1 hT2
      (by norm_num [rmiredR, RobertsonMired])
      (by have h : rmiredR (14 - 1) = 175 := by norm_num [rmiredR, RobertsonMired]
          rw [h]; have h2 := not_le.mp hc13; linarith)
      (by have h : rmiredR 14 = 200 := by norm_num [rmiredR, RobertsonMired]
          rw [h]; linarith)
      ((1311799519781891 : ℝ) / 1000000000000000) ((13117995197818911 : ℝ) / 10000000000000000) ((14271409320736337 : ℝ) / 10000000000000000) ((7135704660368169 : ℝ) / 5000000000000000)
      (by norm_num) (by norm_num) (by norm_num) (by norm_num)
      (by norm_num [tR, rUVT, RobertsonUVT])
      (by norm_num [tR, rUVT, RobertsonUVT])
      (by norm_num [tR, rUVT, RobertsonUVT])
      (by norm_num [tR, rUVT, RobertsonUVT])
      (by norm_num [rmiredR, RobertsonMired])
      (by norm_num [rmiredR, RobertsonMired])
  by_cases hc15 : 1000000 / T ≤ 225
  · exact segment_roundtrip 15 (by norm_num) (by norm_num)
      ((1274103 : ℝ) / 100000000) ((351543 : ℝ) / 25000000)
      (by rw [realE_eq, show EIntRob 15 14 = 127410300 from by decide]; norm_num)
      (by rw [realE_eq, show EIntRob 14 15 = -140617200 from by decide]; norm_num)
      T hT1 hT2
      (by norm_num [rmiredR, RobertsonMired])
      (by have h : rmiredR (15 - 1) = 200 := by norm_num [rmiredR, RobertsonMired]
          rw [h]; have h2 := not_le.mp hc14; linarith)
      (by have h : rmiredR 15 = 225 := by norm_num [rmiredR, RobertsonMired]
          rw [h]; linarith)
      ((14271409320736337 : ℝ) / 10000000000000000) ((7135704660368169 : ℝ) / 5000000000000000) ((1574992774586601 : ℝ) / 1000000000000000) ((15749927745866011 : ℝ) / 10000000000000000)
      (by norm_num) (by norm_num) (by norm_num) (by norm_num)
      (by norm_num [tR, rUVT, RobertsonUVT])
      (by norm_num [tR, rUVT, RobertsonUVT])
      (by norm_num [tR, rUVT, RobertsonUVT])
      (by norm_num [tR, rUVT, RobertsonUVT])
      (by norm_num [rmiredR, RobertsonMired])
      (by norm_num [rmiredR, RobertsonMired])
  by_cases hc16 : 1000000 / T ≤ 250
  · exact segment_roundtrip 16 (by norm_num) (by norm_num)
      ((433321 : ℝ) / 31250000) ((484889 : ℝ) / 31250000)
      (by rw [realE_eq, show EIntRob 16 15 = 138662720 from by decide]; norm_num)
      (by rw [realE_eq, show EIntRob 15 16 = -155164480 from by decide]; norm_num)
      T hT1 hT2
      (by norm_num [rmiredR, RobertsonMired])
      (by have h : rmiredR (16 - 1) = 225 := by norm_num [rmiredR, RobertsonMired]
          rw [h]; have h2 := not_le.mp hc15; linarith)
      (by have h : rmiredR 16 = 250 := by norm_num [rmiredR, RobertsonMired]
          rw [h]; linarith)
      ((1574992774586601 : ℝ) / 1000000000000000) ((15749927745866011 : ℝ) / 10000000000000000) ((17623794824043997 : ℝ) / 10000000000000000) ((8811897412021999 : ℝ) / 5000000000000000)
      (by norm_num) (by norm_num) (by norm_num) (by norm_num)
      (by norm_num [tR, rUVT, RobertsonUVT])
      (by norm_num [tR, rUVT, RobertsonUVT])
      (by norm_num [tR, rUVT, RobertsonUVT])
      (by norm_num [tR, rUVT, RobertsonUVT])
      (by norm_num [rmiredR, RobertsonMired])
      (by norm_num [rmiredR, RobertsonMired])
  by_cases hc17 : 1000000 / T ≤ 275
  · exact segment_roundtrip 17 (by norm_num) (by norm_num)
      ((958177 : ℝ) / 62500000) ((1086333 : ℝ) / 62500000)
      (by rw [realE_eq, show EIntRob 17 16 = 153308320 from by decide]; norm_num)
      (by rw [realE_eq, show EIntRob 16 17 = -173813280 from by decide]; norm_num)
      T hT1 hT2
      (by norm_num [rmiredR, RobertsonMired])
      (by have h : rmiredR (17 - 1) = 250 := by norm_num [rmiredR, RobertsonMired]
          rw [h]; have h2 := not_le.mp hc16; linarith)
      (by have h : rmiredR 17 = 275 := by norm_num [rmiredR, RobertsonMired]
          rw [h]; linarith)
      ((17623794824043997 : ℝ) / 10000000000000000) ((8811897412021999 : ℝ) / 5000000000000000) ((4995127651021543 : ℝ) / 2500000000000000) ((19980510604086173 : ℝ) / 10000000000000000)
      (by norm_num) (by norm_num) (by norm_num) (by norm_num)
      (by norm_num [tR, rUVT, RobertsonUVT])
      (by norm_num [tR, rUVT, RobertsonUVT])
      (by norm_num [tR, rUVT, RobertsonUVT])
      (by norm_num [tR, rUVT, RobertsonUVT])
      (by norm_num [rmiredR, RobertsonMired])
      (by norm_num [rmiredR, RobertsonMired])
  by_cases hc18 : 1000000 / T ≤ 300
  · exact segment_roundtrip 18 (by norm_num) (by norm_num)
      ((8619187 : ℝ) / 500000000) ((19786031 : ℝ) / 1000000000)
      (by rw [realE_eq, show EIntRob 18 17 = 172383740 from by decide]; norm_num)
      (by rw [realE_eq, show EIntRob 17 18 = -197860310 from by decide]; norm_num)
      T hT1 hT2
      (by norm_num [rmiredR, RobertsonMired])
      (by have h : rmiredR (18 - 1) = 275 := by norm_num [rmiredR, RobertsonMired]
          rw [h]; have h2 := not_le.mp hc17; linarith)
      (by have h : rmiredR 18 = 300 := by norm_num [rmiredR, RobertsonMired]
          rw [h]; linarith)
      ((4995127651021543 : ℝ) / 2500000000000000) ((19980510604086173 : ℝ) / 10000000000000000) ((91728797571973 : ℝ) / 40000000000000) ((22932199392993251 : ℝ) / 10000000000000000)
      (by norm_num) (by norm_num) (by norm_num) (by norm_num)
      (by norm_num [tR, rUVT, RobertsonUVT])
      (by norm_num [tR, rUVT, RobertsonUVT])
      (by norm_num [tR, rUVT, RobertsonUVT])
      (by norm_num [tR, rUVT, RobertsonUVT])
      (by norm_num [rmiredR, RobertsonMired])
      (by norm_num [rmiredR, RobertsonMired])
  by_cases hc19 : 1000000 / T ≤ 325
  · exact segment_roundtrip 19 (by norm_num) (by norm_num)
      ((9804067 : ℝ) / 500000000) ((11385271 : ℝ) / 500000000)
      (by rw [realE_eq, show EIntRob 19 18 = 196081340 from by decide]; norm_num)
      (by rw [realE_eq, show EIntRob 18 19 = -227705420 from by decide]; norm_num)
      T hT1 hT2
      (by norm_num [rmiredR, RobertsonMired])
      (by have h : rmiredR (19 - 1) = 300 := by norm_num [rmiredR, RobertsonMired]
          rw [h]; have h2 := not_le.mp hc18; linarith)
      (by have h : rmiredR 19 = 325 := by norm_num [rmiredR, RobertsonMired]
          rw [h]; linarith)
      ((91728797571973 : ℝ) / 40000000000000) ((22932199392993251 : ℝ) / 10000000000000000) ((13314951755451463 : ℝ) / 5000000000000000) ((26629903510902927 : ℝ) / 10000000000000000)
      (by norm_num) (by norm_num) (by norm_num) (by norm_num)
      (by norm_num [tR, rUVT, RobertsonUVT])
      (by norm_num [tR, rUVT, RobertsonUVT])
      (by norm_num [tR, rUVT, RobertsonUVT])
      (by norm_num [tR, rUVT, RobertsonUVT])
      (by norm_num [rmiredR, RobertsonMired])
      (by norm_num [rmiredR, RobertsonMired])
  by_cases hc20 : 1000000 / T ≤ 350
  · exact segment_roundtrip 20 (by norm_num) (by norm_num)
      ((22680119 : ℝ) / 1000000000) ((26643159 : ℝ) / 1000000000)
      (by rw [realE_eq, show EIntRob 20 19 = 226801190 from by decide]; norm_num)
      (by rw [realE_eq, show EIntRob 19 20 = -266431590 from by decide]; norm_num)
      T hT1 hT2
      (by norm_num [rmiredR, RobertsonMired])
      (by have h : rmiredR (20 - 1) = 325 := by norm_num [rmiredR, RobertsonMired]
          rw [h]; have h2 := not_le.mp hc19; linarith)
      (by have h : rmiredR 20 = 350 := by norm_num [rmiredR, RobertsonMired]
          rw [h]; linarith)
      ((13314951755451463 : ℝ) / 5000000000000000) ((26629903510902927 : ℝ) / 10000000000000000) ((31282405294350369 : ℝ) / 10000000000000000) ((3128240529435037 : ℝ) / 1000000000000000)
      (by norm_num) (by norm_num) (by norm_num) (by norm_num)
      (by norm_num [tR, rUVT, RobertsonUVT])
      (by norm_num [tR, rUVT, RobertsonUVT])
      (by norm_num [tR, rUVT, RobertsonUVT])
      (by norm_num [tR, rUVT, RobertsonUVT])
      (by norm_num [rmiredR, RobertsonMired])
      (by norm_num [rmiredR, RobertsonMired])
  by_cases hc21 : 1000000 / T ≤ 375
  · exact segment_roundtrip 21 (by norm_num) (by norm_num)
      ((26469569 : ℝ) / 1000000000) ((15731763 : ℝ) / 500000000)
      (by rw [realE_eq, show EIntRob 21 20 = 264695690 from by decide]; norm_num)
      (by rw [realE_eq, show EIntRob 20 21 = -314635260 from by decide]; norm_num)
      T hT1 hT2
      (by norm_num [rmiredR, RobertsonMired])
      (by have h : rmiredR (21 - 1) = 350 := by norm_num [rmiredR, RobertsonMired]
          rw [h]; have h2 := not_le.mp hc20; linarith)
      (by have h : rmiredR 21 = 375 := by norm_num [rmiredR, RobertsonMired]
          rw [h]; linarith)
      ((31282405294350369 : ℝ) / 10000000000000000) ((3128240529435037 : ℝ) / 1000000000000000) ((1859195118861923 : ℝ) / 500000000000000) ((37183902377238461 : ℝ) / 10000000000000000)
      (by norm_num) (by norm_num) (by norm_num) (by norm_num)
      (by norm_num [tR, rUVT, RobertsonUVT])
      (by norm_num [tR, rUVT, RobertsonUVT])
      (by norm_num [tR, rUVT, RobertsonUVT])
      (by norm_num [tR, rUVT, RobertsonUVT])
      (by norm_num [rmiredR, RobertsonMired])
      (by norm_num [rmiredR, RobertsonMired])
  by_cases hc22 : 1000000 / T ≤ 400
  · exact segment_roundtrip 22 (by norm_num) (by norm_num)
      ((7841463 : ℝ) / 250000000) ((18880897 : ℝ) / 500000000)
      (by rw [realE_eq, show EIntRob 22 21 = 313658520 from by decide]; norm_num)
      (by rw [realE_eq, show EIntRob 21 22 = -377617940 from by decide]; norm_num)
      T hT1 hT2
      (by norm_num [rmiredR, RobertsonMired])
      (by have h : rmiredR (22 - 1) = 375 := by norm_num [rmiredR, RobertsonMired]
          rw [h]; have h2 := not_le.mp hc21; linarith)
      (by have h : rmiredR 22 = 400 := by norm_num [rmiredR, RobertsonMired]
          rw [h]; linarith)
      ((1859195118861923 : ℝ) / 500000000000000) ((37183902377238461 : ℝ) / 10000000000000000) ((4476425682394381 : ℝ) / 1000000000000000) ((44764256823943811 : ℝ) / 10000000000000000)
      (by norm_num) (by norm_num) (by norm_num) (by norm_num)
      (by norm_num [tR, rUVT, RobertsonUVT])
      (by norm_num [tR, rUVT, RobertsonUVT])
      (by norm_num [tR, rUVT, RobertsonUVT])
      (by norm_num [tR, rUVT, RobertsonUVT])
      (by norm_num [rmiredR, RobertsonMired])
      (by norm_num [rmiredR, RobertsonMired])
  by_cases hc23 : 1000000 / T ≤ 425
  · exact segment_roundtrip 23 (by norm_num) (by norm_num)
      ((37522693 : ℝ) / 1000000000) ((22919301 : ℝ) / 500000000)
      (by rw [realE_eq, show EIntRob 23 22 = 375226930 from by decide]; norm_num)
      (by rw [realE_eq, show EIntRob 22 23 = -458386020 from by decide]; norm_num)
      T hT1 hT2
      (by norm_num [rmiredR, RobertsonMired])
      (by have h : rmiredR (23 - 1) = 400 := by norm_num [rmiredR, RobertsonMired]
          rw [h]; have h2 := not_le.mp hc22; linarith)
      (by have h : rmiredR 23 = 425 := by norm_num [rmiredR, RobertsonMired]
          rw [h]; linarith)
      ((4476425682394381 : ℝ) / 1000000000000000) ((44764256823943811 : ℝ) / 10000000000000000) ((54684116926215421 : ℝ) / 10000000000000000) ((27342058463107711 : ℝ) / 5000000000000000)
      (by norm_num) (by norm_num) (by norm_num) (by norm_num)
      (by norm_num [tR, rUVT, RobertsonUVT])
      (by norm_num [tR, rUVT, RobertsonUVT])
      (by norm_num [tR, rUVT, RobertsonUVT])
      (by norm_num [tR, rUVT, RobertsonUVT])
      (by norm_num [rmiredR, RobertsonMired])
      (by norm_num [rmiredR, RobertsonMired])
  by_cases hc24 : 1000000 / T ≤ 450
  · exact segment_roundtrip 24 (by norm_num) (by norm_num)
      ((89199 : ℝ) / 1953125) ((1774809 : ℝ) / 31250000)
      (by rw [realE_eq, show EIntRob 24 23 = 456698880 from by decide]; norm_num)
      (by rw [realE_eq, show EIntRob 23 24 = -567938880 from by decide]; norm_num)
      T hT1 hT2
      (by norm_num [rmiredR, RobertsonMired])
      (by have h : rmiredR (24 - 1) = 425 := by norm_num [rmiredR, RobertsonMired]
          rw [h]; have h2 := not_le.mp hc23; linarith)
      (by have h : rmiredR 24 = 450 := by norm_num [rmiredR, RobertsonMired]
          rw [h]; linarith)
      ((54684116926215421 : ℝ) / 10000000000000000) ((27342058463107711 : ℝ) / 5000000000000000) ((34000649420268431 : ℝ) / 5000000000000000) ((68001298840536863 : ℝ) / 10000000000000000)
      (by norm_num) (by norm_num) (by norm_num) (by norm_num)
      (by norm_num [tR, rUVT, RobertsonUVT])
      (by norm_num [tR, rUVT, RobertsonUVT])
      (by norm_num [tR, rUVT, RobertsonUVT])
      (by norm_num [tR, rUVT, RobertsonUVT])
      (by norm_num [rmiredR, RobertsonMired])
      (by norm_num [rmiredR, RobertsonMired])
  by_cases hc25 : 1000000 / T ≤ 475
  · exact segment_roundtrip 25 (by norm_num) (by norm_num)
      ((14094841 : ℝ) / 250000000) ((7174501 : ℝ) / 100000000)
      (by rw [realE_eq, show EIntRob 25 24 = 563793640 from by decide]; norm_num)
      (by rw [realE_eq, show EIntRob 24 25 = -717450100 from by decide]; norm_num)
      T hT1 hT2
      (by norm_num [rmiredR, RobertsonMired])
      (by have h : rmiredR (25 - 1) = 450 := by norm_num [rmiredR, RobertsonMired]
          rw [h]; have h2 := not_le.mp hc24; linarith)
      (by have h : rmiredR 25 = 475 := by norm_num [rmiredR, RobertsonMired]
          rw [h]; linarith)
      ((34000649420268431 : ℝ) / 5000000000000000) ((68001298840536863 : ℝ) / 10000000000000000) ((43267372305814921 : ℝ) / 5000000000000000) ((86534744611629843 : ℝ) / 10000000000000000)
      (by norm_num) (by norm_num) (by norm_num) (by norm_num)
      (by norm_num [tR, rUVT, RobertsonUVT])
      (by norm_num [tR, rUVT, RobertsonUVT])
      (by norm_num [tR, rUVT, RobertsonUVT])
      (by norm_num [tR, rUVT, RobertsonUVT])
      (by norm_num [rmiredR, RobertsonMired])
      (by norm_num [rmiredR, RobertsonMired])
  exact segment_roundtrip 26 (by norm_num) (by norm_num)
    ((713231 : ℝ) / 10000000) ((117121 : ℝ) / 1250000)
    (by rw [realE_eq, show EIntRob 26 25 = 713231000 from by decide]; norm_num)
    (by rw [realE_eq, show EIntRob 25 26 = -936968000 from by decide]; norm_num)
    T hT1 hT2
    (by norm_num [rmiredR, RobertsonMired])
    (by have h : rmiredR (26 - 1) = 475 := by norm_num [rmiredR, RobertsonMired]
        rw [h]; have h2 := not_le.mp hc25; linarith)
    (by have h : rmiredR 26 = 500 := by norm_num [rmiredR, RobertsonMired]
        rw [h]; linarith)
    ((43267372305814921 : ℝ) / 5000000000000000) ((86534744611629843 : ℝ) / 10000000000000000) ((113680682615825279 : ℝ) / 10000000000000000) ((177626066587227 : ℝ) / 15625000000000)
    (by norm_num) (by norm_num) (by norm_num) (by norm_num)
    (by norm_num [tR, rUVT, RobertsonUVT])
    (by norm_num [tR, rUVT, RobertsonUVT])
    (by norm_num [tR, rUVT, RobertsonUVT])
    (by norm_num [tR, rUVT, RobertsonUVT])
    (by norm_num [rmiredR, RobertsonMired])
    (by norm_num [rmiredR, RobertsonMired])

/-- C7 witness: the round trip evaluated at 6500 K. -/
theorem C7_cct_round_trip_witness :
    |XYZToColorTemperature (colorTemperatureToXYZ 6500) - 6500| ≤ 1 :=
  C7_cct_round_trip 6500 (by norm_num) (by norm_num)

end Rta
